import Mathlib

/-!
Verification development for the two backend services bundled in the
portfolio repository: the AI workflow platform (workflow definitions,
workflow engine, step worker) and the SaaS website builder (renderer,
build engine, publish/rollback).  Every definition below is a shallow
embedding of a function or record type of the TypeScript sources; the
doc comment of each definition names the source file it is translated
from.  Machine integers are modelled as `Nat` (no arithmetic in the
sources overflows), fallible code returns `Except`, and database /
queue side effects are modelled as explicit state passing over record
types mirroring the Prisma models.
-/

/- ══════════════════════════════════════════════════════════════════
   Workflow domain data model
   (ai-workflow-platform/src/types/index.ts)
   ══════════════════════════════════════════════════════════════════ -/

/-- Node type tags, from `StepType` in ai-workflow-platform/src/types/index.ts. -/
inductive StepType where
  | AI_COMPLETION
  | HTTP_REQUEST
  | CONDITION
  | TRANSFORM
  | DELAY
  | WEBHOOK
deriving DecidableEq, Repr

/-- Run status, from `RunStatus` in ai-workflow-platform/src/types/index.ts. -/
inductive RunStatus where
  | PENDING
  | RUNNING
  | COMPLETED
  | FAILED
  | CANCELLED
deriving DecidableEq, Repr

/-- Step status, from `StepStatus` in ai-workflow-platform/src/types/index.ts. -/
inductive StepStatus where
  | PENDING
  | RUNNING
  | COMPLETED
  | FAILED
  | SKIPPED
deriving DecidableEq, Repr

/-- Node configuration, from `WorkflowNodeConfig` in
ai-workflow-platform/src/types/index.ts.  All fields are optional in the
source.  Fields not consumed by any embedded function (model,
systemPrompt, userPromptTemplate, temperature, maxTokens, url, method,
headers, body, template, webhookSecret) are omitted here; the embedded
functions below only read `expression`, `trueBranch`, `falseBranch` and
`delayMs`. -/
structure WorkflowNodeConfig where
  expression : Option String := none
  trueBranch : Option String := none
  falseBranch : Option String := none
  delayMs : Option Nat := none
deriving DecidableEq, Repr

/-- A workflow node, from `WorkflowNode` in
ai-workflow-platform/src/types/index.ts. -/
structure WorkflowNode where
  id : String
  type : StepType
  config : WorkflowNodeConfig
  next : List String
deriving DecidableEq, Repr

/-- A workflow edge, from `WorkflowEdge` in
ai-workflow-platform/src/types/index.ts.  The source fields are named
`from` and `to`; `from` is a Lean keyword, so the fields are named
`fromKey` and `toKey` here. -/
structure WorkflowEdge where
  fromKey : String
  toKey : String
deriving DecidableEq, Repr

/-- Workflow metadata, from `WorkflowMetadata` in
ai-workflow-platform/src/types/index.ts. -/
structure WorkflowMetadata where
  name : String
  version : Nat
  description : Option String := none
deriving DecidableEq, Repr

/-- A workflow definition, from `WorkflowDefinition` in
ai-workflow-platform/src/types/index.ts.  The source `nodes` field is a
JS object `Record<string, WorkflowNode>`; it is modelled as an
association list with the object's insertion order (JS objects have
unique string keys and `Object.keys` / `Object.entries` iterate in
insertion order). -/
structure WorkflowDefinition where
  metadata : WorkflowMetadata
  nodes : List (String × WorkflowNode)
  edges : List WorkflowEdge
  entrypoint : String
deriving DecidableEq, Repr

/-- JS object indexing `nodes[key]`: first (unique) binding of the key. -/
def findNode (nodes : List (String × WorkflowNode)) (key : String) :
    Option WorkflowNode :=
  (nodes.find? (fun p => p.1 = key)).map Prod.snd

/- ══════════════════════════════════════════════════════════════════
   Workflow definition graph validation
   (ai-workflow-platform/src/api/routes/workflows.ts, lines 33-68)
   ══════════════════════════════════════════════════════════════════ -/

/-- Check of the edge list in `validateDefinitionGraph`
(workflows.ts lines 40-47): every edge endpoint must name an existing
node; the first offending edge raises the error, in list order. -/
def validateEdges (nodeIds : List String) :
    List WorkflowEdge → Except String Unit
  | [] => Except.ok ()
  | e :: rest =>
    if !(nodeIds.contains e.fromKey) then
      Except.error ("Edge references unknown source node: " ++ e.fromKey)
    else if !(nodeIds.contains e.toKey) then
      Except.error ("Edge references unknown target node: " ++ e.toKey)
    else validateEdges nodeIds rest

/-- Per-node checks of `validateDefinitionGraph` (workflows.ts lines
49-67): key/id agreement, `next` references, and CONDITION branch
references, in entry order. -/
def validateNodes (nodeIds : List String) :
    List (String × WorkflowNode) → Except String Unit
  | [] => Except.ok ()
  | (nodeId, node) :: rest =>
    if node.id ≠ nodeId then
      Except.error ("Node key \x27" ++ nodeId ++ "\x27 does not match node.id \x27"
        ++ node.id ++ "\x27")
    else
      match node.next.find? (fun nextId => !(nodeIds.contains nextId)) with
      | some nextId =>
        Except.error ("Node \x27" ++ nodeId ++ "\x27 references unknown next node: "
          ++ nextId)
      | none =>
        if node.type = StepType.CONDITION then
          match node.config.trueBranch with
          | some tb =>
            if !(nodeIds.contains tb) then
              Except.error ("Condition node \x27" ++ nodeId
                ++ "\x27 references unknown trueBranch: " ++ tb)
            else
              match node.config.falseBranch with
              | some fb =>
                if !(nodeIds.contains fb) then
                  Except.error ("Condition node \x27" ++ nodeId
                    ++ "\x27 references unknown falseBranch: " ++ fb)
                else validateNodes nodeIds rest
              | none => validateNodes nodeIds rest
          | none =>
            match node.config.falseBranch with
            | some fb =>
              if !(nodeIds.contains fb) then
                Except.error ("Condition node \x27" ++ nodeId
                  ++ "\x27 references unknown falseBranch: " ++ fb)
              else validateNodes nodeIds rest
            | none => validateNodes nodeIds rest
        else validateNodes nodeIds rest

/-- Embedding of `validateDefinitionGraph` from
ai-workflow-platform/src/api/routes/workflows.ts lines 33-68, the
validation run on workflow create (POST /workflows) and update
(PUT /workflows/:id).  `Except.error msg` stands for
`throw new ValidationError(msg)`; every throw in the source function is
a ValidationError.  In the source, a CONDITION branch check
`cfg.trueBranch && !nodeIds.has(cfg.trueBranch)` only fires when the
branch field is present (truthy); an absent branch is skipped, which the
nested matches above reproduce. -/
def validateDefinitionGraph (definition : WorkflowDefinition) :
    Except String Unit :=
  let nodeIds := definition.nodes.map Prod.fst
  if !(nodeIds.contains definition.entrypoint) then
    Except.error "Entrypoint node does not exist in nodes map"
  else
    match validateEdges nodeIds definition.edges with
    | Except.error e => Except.error e
    | Except.ok () => validateNodes nodeIds definition.nodes

/- ══════════════════════════════════════════════════════════════════
   Cycle predicate on the edge list (used to state claim C1; this is
   the graph-theoretic notion "the edge list contains a cycle", not a
   translation of any source function — the source has no cycle check)
   ══════════════════════════════════════════════════════════════════ -/

/-- Successors of `a` along the edge list. -/
def edgeSuccessors (edges : List WorkflowEdge) (a : String) : List String :=
  (edges.filter (fun e => e.fromKey = a)).map (fun e => e.toKey)

/-- Bounded reachability along the edge list: is there a path of length
between 1 and `fuel` from `a` to `b`? -/
def reachesWithin (edges : List WorkflowEdge) : Nat → String → String → Bool
  | 0, _, _ => false
  | fuel + 1, a, b =>
    (edgeSuccessors edges a).contains b ||
      (edgeSuccessors edges a).any (fun c => reachesWithin edges fuel c b)

/-- Decidable statement of "the definition's edge list contains a
cycle": some node lies on a directed cycle of the edge relation.  A
simple cycle has length at most `edges.length`, so that fuel bound is
exhaustive. -/
def edgeListHasCycle (definition : WorkflowDefinition) : Bool :=
  (definition.nodes.map Prod.fst).any
    (fun k => reachesWithin definition.edges definition.edges.length k k)

/-- Concrete cyclic workflow definition: two TRANSFORM nodes whose edge
list forms the 2-cycle a → b → a.  Every referential invariant that
`validateDefinitionGraph` checks holds for it. -/
def cyclicDefinition : WorkflowDefinition :=
  { metadata := { name := "cyclic", version := 1 }
    nodes :=
      [ ("a", { id := "a", type := StepType.TRANSFORM, config := {}, next := ["b"] })
      , ("b", { id := "b", type := StepType.TRANSFORM, config := {}, next := ["a"] }) ]
    edges := [ { fromKey := "a", toKey := "b" }, { fromKey := "b", toKey := "a" } ]
    entrypoint := "a" }

/-- C1: the spec requires workflow create/update to reject a definition
whose edge list contains a cycle with ValidationError, so that every
persisted definition is acyclic.  The code has no cycle detection:
`validateDefinitionGraph` (the only validation beyond the zod schema,
which checks shapes only, and the only check `startRun` adds is
entrypoint existence) accepts the concrete cyclic definition, so a
cyclic definition is persisted.  This theorem evaluates the embedded
validator at the failing input and records that the input's edge list
is cyclic. -/
theorem dag_validation_accepts_cycle :
    validateDefinitionGraph cyclicDefinition = Except.ok () ∧
      edgeListHasCycle cyclicDefinition = true := by
  constructor <;> rfl

/- ══════════════════════════════════════════════════════════════════
   Engine state
   (prisma models WorkflowRun / WorkflowStep / WorkflowEvent as used by
   ai-workflow-platform/src/services/workflow-engine.ts)
   ══════════════════════════════════════════════════════════════════ -/

/-- Step output values, as consumed by the engine.  Outputs are
schemaless JSON in the source; the engine only ever reads the
`selectedBranch` property (`output as {selectedBranch?: string}` in
`handleStepComplete`), so the embedding keeps the two output shapes the
claims mention and collapses the rest into `other`. -/
inductive StepOutput where
  | condition (conditionResult : Bool) (expression : String)
      (selectedBranch : Option String)
  | delayed (delayMs : Nat)
  | other
deriving DecidableEq, Repr

/-- Reading `output?.selectedBranch` from a schemaless output: the
property is only present on CONDITION outputs; on every other value the
JS access yields undefined. -/
def selectedBranchOf : StepOutput → Option String
  | StepOutput.condition _ _ b => b
  | _ => none

/-- A WorkflowStep row, from the prisma model used by
workflow-engine.ts.  Timestamp columns (startedAt, completedAt) are not
modelled; no claim mentions them. -/
structure WorkflowStepRec where
  id : String
  runId : String
  stepKey : String
  type : StepType
  status : StepStatus
  output : Option StepOutput := none
  error : Option String := none
  retryCount : Nat := 0
  idempotencyKey : String
deriving DecidableEq, Repr

/-- A WorkflowRun row, from the prisma model used by
workflow-engine.ts. -/
structure WorkflowRunRec where
  id : String
  tenantId : String
  workflowId : String
  status : RunStatus
  output : Option StepOutput := none
  error : Option String := none
  currentStepId : Option String := none
deriving DecidableEq, Repr

/-- A WorkflowEvent row (append-only log written by the engine); only
the fields the engine writes that the claims could observe are kept. -/
structure WorkflowEventRec where
  type : String
  stepKey : Option String := none
deriving DecidableEq, Repr

/-- The slice of the relational store a single run's engine operations
touch: the run row, its step rows, the parent workflow's definition,
and the event log. -/
structure EngineDb where
  run : WorkflowRunRec
  steps : List WorkflowStepRec
  definition : WorkflowDefinition
  events : List WorkflowEventRec := []
deriving DecidableEq, Repr

/-- Engine configuration, from the `workflow` block of
ai-workflow-platform/src/lib/config.ts (lines 46-51). -/
structure WorkflowConfig where
  maxRetries : Nat
  retryBaseDelayMs : Nat
deriving DecidableEq, Repr

/-- The values config.ts hard-codes: maxRetries 3, retryBaseDelayMs
1000 (1 s). -/
def defaultWorkflowConfig : WorkflowConfig :=
  { maxRetries := 3, retryBaseDelayMs := 1000 }

/-- prisma `workflowStep.findFirst({where: {runId, stepKey}})`. -/
def findStep (steps : List WorkflowStepRec) (runId stepKey : String) :
    Option WorkflowStepRec :=
  steps.find? (fun s => s.runId = runId && s.stepKey = stepKey)

/-- prisma `workflowStep.update({where: {id}, data})`: rewrite the row
with the given id. -/
def updateStepById (steps : List WorkflowStepRec) (id : String)
    (f : WorkflowStepRec → WorkflowStepRec) : List WorkflowStepRec :=
  steps.map (fun s => if s.id = id then f s else s)

/-- A step-queue enqueue request `(stepKey, delayMs)` produced by
`WorkflowEngine.enqueueStep` (the BullMQ `queue.add` call). -/
abbrev EnqueueReq := String × Nat

/- ══════════════════════════════════════════════════════════════════
   WorkflowEngine.failRun / handleStepError
   (workflow-engine.ts lines 404-471 and 500-531)
   ══════════════════════════════════════════════════════════════════ -/

/-- Embedding of `WorkflowEngine.failRun` (workflow-engine.ts lines
503-531): every PENDING step of the run becomes SKIPPED
(`updateMany({where: {runId, status: PENDING}})`), the run becomes
FAILED with the error message, currentStepId is cleared, and a
`run.failed` event is recorded. -/
def failRun (db : EngineDb) (error : String) : EngineDb :=
  { db with
    steps := db.steps.map (fun s =>
      if s.runId = db.run.id && s.status = StepStatus.PENDING then
        { s with status := StepStatus.SKIPPED }
      else s)
    run := { db.run with
      status := RunStatus.FAILED
      error := some error
      currentStepId := none }
    events := db.events ++ [{ type := "run.failed" }] }

/-- Embedding of `WorkflowEngine.handleStepError` (workflow-engine.ts
lines 404-471).  Looks up the step by `(runId, stepKey)`; with
`newRetryCount = retryCount + 1`, while `newRetryCount ≤ maxRetries`
the step is reset to PENDING with the bumped retry count and a fresh
idempotency key and the step is re-enqueued with delay
`retryBaseDelayMs * 2 ^ (newRetryCount - 1)`; on exhaustion the step
becomes FAILED and `failRun` marks the remaining PENDING steps SKIPPED
and the run FAILED.  Returns the updated store and the enqueue request,
if any. -/
def handleStepError (config : WorkflowConfig) (db : EngineDb)
    (stepKey error : String) : EngineDb × Option EnqueueReq :=
  match findStep db.steps db.run.id stepKey with
  | none => (db, none)
  | some step =>
    let newRetryCount := step.retryCount + 1
    if newRetryCount ≤ config.maxRetries then
      let db := { db with
        steps := updateStepById db.steps step.id (fun s =>
          { s with
            retryCount := newRetryCount
            status := StepStatus.PENDING
            error := some error
            idempotencyKey :=
              db.run.id ++ ":" ++ stepKey ++ ":" ++ toString newRetryCount })
        events := db.events ++ [{ type := "step.retry", stepKey := some stepKey }] }
      let delay := config.retryBaseDelayMs * 2 ^ (newRetryCount - 1)
      (db, some (stepKey, delay))
    else
      let db := { db with
        steps := updateStepById db.steps step.id (fun s =>
          { s with status := StepStatus.FAILED, error := some error })
        events := db.events ++ [{ type := "step.failed", stepKey := some stepKey }] }
      (failRun db ("Step \x27" ++ stepKey ++ "\x27 failed after "
        ++ toString config.maxRetries ++ " retries: " ++ error), none)

/- ══════════════════════════════════════════════════════════════════
   WorkflowEngine.handleStepComplete
   (workflow-engine.ts lines 326-399, with completeRun lines 476-498
   and getReachableSteps lines 609-626)
   ══════════════════════════════════════════════════════════════════ -/

/-- Embedding of `WorkflowEngine.getReachableSteps` (workflow-engine.ts
lines 609-626): the set of step keys listed in `next` of some COMPLETED
step's node.  The source returns a JS Set; membership is all that is
consumed, so a key list stands in for it. -/
def getReachableSteps (definition : WorkflowDefinition)
    (steps : List WorkflowStepRec) : List String :=
  ((steps.filter (fun s => s.status = StepStatus.COMPLETED)).map
    (fun s => s.stepKey)).flatMap
    (fun key =>
      match findNode definition.nodes key with
      | some node => node.next
      | none => [])

/-- Embedding of `WorkflowEngine.completeRun` (workflow-engine.ts lines
476-498): the run becomes COMPLETED with the final step output recorded
as the run output, currentStepId cleared, and a `run.completed` event
appended. -/
def completeRun (db : EngineDb) (finalOutput : StepOutput) : EngineDb :=
  { db with
    run := { db.run with
      status := RunStatus.COMPLETED
      output := some finalOutput
      currentStepId := none }
    events := db.events ++ [{ type := "run.completed" }] }

/-- Embedding of `WorkflowEngine.handleStepComplete` (workflow-engine.ts
lines 326-399).  The completed step is marked COMPLETED with its output
and a `step.completed` event is appended.  For a CONDITION node the
successor list is the single key in the output's `selectedBranch` (empty
when absent) and `node.next` is not consulted; otherwise it is
`node.next`.  With no successors the run-completion check runs
(`allDone`, and the pending-not-reachable test over
`pendingSteps[0]`); otherwise each successor key that exists in
`definition.nodes` is enqueued with delay 0, and a successor key absent
from the nodes map is silently dropped.  Returns the updated store and
the enqueue requests.  The `findStep`/`findNode` `none` fallbacks return
the store unchanged; they are unreachable through the worker because
step rows are created exactly for the definition's nodes at run start. -/
def handleStepComplete (db : EngineDb) (stepKey : String)
    (output : StepOutput) : EngineDb × List EnqueueReq :=
  match findStep db.steps db.run.id stepKey with
  | none => (db, [])
  | some step =>
    match findNode db.definition.nodes stepKey with
    | none => (db, [])
    | some nodeDef =>
      let db := { db with
        steps := updateStepById db.steps step.id (fun s =>
          { s with status := StepStatus.COMPLETED, output := some output })
        events := db.events ++
          [{ type := "step.completed", stepKey := some stepKey }] }
      let nextSteps : List String :=
        if nodeDef.type = StepType.CONDITION then
          match selectedBranchOf output with
          | some b => [b]
          | none => []
        else nodeDef.next
      if nextSteps.isEmpty then
        let updatedSteps := db.steps
        let allDone := updatedSteps.all (fun s =>
          s.status = StepStatus.COMPLETED || s.status = StepStatus.SKIPPED ||
            s.status = StepStatus.FAILED)
        let pendingSteps := updatedSteps.filter
          (fun s => s.status = StepStatus.PENDING)
        let reachableFromCompleted := getReachableSteps db.definition updatedSteps
        let firstPendingReachable :=
          match pendingSteps.head? with
          | some p => reachableFromCompleted.contains p.stepKey
          | none => false
        if allDone || (pendingSteps.length != 0 && !firstPendingReachable)
        then (completeRun db output, [])
        else (db, [])
      else
        (db, nextSteps.filterMap (fun nextKey =>
          if (findNode db.definition.nodes nextKey).isSome then
            some (nextKey, 0)
          else none))

/- ══════════════════════════════════════════════════════════════════
   Step worker idempotency gate
   (ai-workflow-platform/src/workers/step-processor.ts lines 13-46)
   ══════════════════════════════════════════════════════════════════ -/

/-- Embedding of `processStep` from step-processor.ts lines 13-46, with
the actual step execution (`engine.executeStep` and the follow-up
WebSocket broadcasts) abstracted as the function argument `exec`.  The
idempotency gate runs first: the step is looked up by
`(runId, stepKey)`; the job is dropped — the store is returned
unchanged — when the step row is missing, when its status is COMPLETED
or SKIPPED, or when the run is missing, CANCELLED or FAILED; only
otherwise does execution proceed. -/
def processStep (exec : EngineDb → EngineDb) (db : EngineDb)
    (runId stepKey : String) : EngineDb :=
  match findStep db.steps runId stepKey with
  | none => db
  | some existingStep =>
    if existingStep.status = StepStatus.COMPLETED then db
    else if existingStep.status = StepStatus.SKIPPED then db
    else
      let runRow := if db.run.id = runId then some db.run else none
      match runRow with
      | none => db
      | some run =>
        if run.status = RunStatus.CANCELLED || run.status = RunStatus.FAILED then
          db
        else exec db

/- ══════════════════════════════════════════════════════════════════
   DELAY node executor
   (workflow-engine.ts lines 296-300)
   ══════════════════════════════════════════════════════════════════ -/

/-- Observable effects of a node executor that concern scheduling: a
wait performed by the worker itself (`await new Promise(resolve =>
setTimeout(resolve, ms))` holds the worker's slot for `ms`), or a
re-enqueue of a step with a delay (`queue.add` with a delay option). -/
inductive WorkerEffect where
  | sleep (ms : Nat)
  | enqueue (stepKey : String) (delayMs : Nat)
deriving DecidableEq, Repr

/-- Whether an effect is a queue re-enqueue. -/
def isEnqueueEffect : WorkerEffect → Bool
  | WorkerEffect.enqueue _ _ => true
  | _ => false

/-- Embedding of `WorkflowEngine.executeDelay` (workflow-engine.ts
lines 296-300): `delayMs` defaults to 1000, the executor awaits a timer
of `Math.min(delayMs, 30000)` inside the worker, and returns
`{delayed: true, delayMs}` with the unclamped configured value.  The
function cannot throw, hence always `Except.ok`. -/
def executeDelay (node : WorkflowNode) :
    Except String (List WorkerEffect × StepOutput) :=
  let delayMs := node.config.delayMs.getD 1000
  Except.ok ([WorkerEffect.sleep (min delayMs 30000)],
    StepOutput.delayed delayMs)

/- ══════════════════════════════════════════════════════════════════
   C3 — retry schedule and exhaustion
   ══════════════════════════════════════════════════════════════════ -/

/-- C3: on a step failure with current retryCount r, if r + 1 ≤
maxRetries (default 3) the engine resets the step to PENDING with
retryCount r + 1 and re-enqueues it with delay
baseDelay * 2 ^ r (baseDelay defaults to 1000 ms, so the delays before
retries 1, 2, 3 are 1000, 2000, 4000 ms); once retries are exhausted the
step becomes FAILED, every remaining PENDING step of the run becomes
SKIPPED, and the run becomes FAILED. -/
theorem retry_backoff_and_exhaustion
    (db : EngineDb) (stepKey err : String) (step : WorkflowStepRec)
    (h : findStep db.steps db.run.id stepKey = some step) :
    (step.retryCount + 1 ≤ 3 →
      (handleStepError defaultWorkflowConfig db stepKey err).2 =
          some (stepKey, 1000 * 2 ^ step.retryCount) ∧
        (∀ s ∈ (handleStepError defaultWorkflowConfig db stepKey err).1.steps,
          s.id = step.id →
            s.status = StepStatus.PENDING ∧ s.retryCount = step.retryCount + 1) ∧
        (handleStepError defaultWorkflowConfig db stepKey err).1.run.status =
          db.run.status) ∧
    (3 < step.retryCount + 1 →
      (handleStepError defaultWorkflowConfig db stepKey err).2 = none ∧
        (handleStepError defaultWorkflowConfig db stepKey err).1.run.status =
          RunStatus.FAILED ∧
        (∀ s ∈ (handleStepError defaultWorkflowConfig db stepKey err).1.steps,
          s.id = step.id → s.status = StepStatus.FAILED) ∧
        (∀ s ∈ db.steps, s.status = StepStatus.PENDING → s.id ≠ step.id →
          s.runId = db.run.id →
            { s with status := StepStatus.SKIPPED } ∈
              (handleStepError defaultWorkflowConfig db stepKey err).1.steps)) := by
  constructor
  · intro hr
    simp only [handleStepError, h, defaultWorkflowConfig]
    rw [if_pos hr]
    refine ⟨by simp, ?_, rfl⟩
    intro s hs hid
    simp only [updateStepById, List.mem_map] at hs
    obtain ⟨u, _, rfl⟩ := hs
    by_cases hu : u.id = step.id
    · simp [hu]
    · simp only [if_neg hu] at hid ⊢
      exact absurd hid hu
  · intro hr
    have hr' : ¬ (step.retryCount + 1 ≤ 3) := by omega
    simp only [handleStepError, h, defaultWorkflowConfig]
    rw [if_neg hr']
    refine ⟨rfl, rfl, ?_, ?_⟩
    · intro s hs hid
      simp only [failRun, updateStepById, List.map_map, List.mem_map,
        Function.comp] at hs
      obtain ⟨a, _, rfl⟩ := hs
      by_cases ha : a.id = step.id
      · simp [ha]
      · simp only [if_neg ha] at hid ⊢
        split at hid <;> simp_all
    · intro s hs hp hne hrun
      simp only [failRun, updateStepById, List.map_map]
      refine List.mem_map.mpr ⟨s, hs, ?_⟩
      simp [Function.comp, if_neg hne, hrun, hp]

/-- Fixture: a running HTTP_REQUEST step with the given retry count,
plus a second still-PENDING step of the same run, used to witness the
retry-schedule theorem at retry counts 0, 1, 2 and 3. -/
def retryFixture (r : Nat) : EngineDb :=
  { run := { id := "r1", tenantId := "t1", workflowId := "w1",
             status := RunStatus.RUNNING }
    steps :=
      [ { id := "st1", runId := "r1", stepKey := "a",
          type := StepType.HTTP_REQUEST, status := StepStatus.RUNNING,
          retryCount := r, idempotencyKey := "r1:a:" ++ toString r }
      , { id := "st2", runId := "r1", stepKey := "b",
          type := StepType.TRANSFORM, status := StepStatus.PENDING,
          retryCount := 0, idempotencyKey := "r1:b:0" } ]
    definition := cyclicDefinition }

/-- Witness for the retry-schedule theorem: at retry counts 0, 1 and 2
the re-enqueue delays are 1000, 2000 and 4000 ms, and at retry count 3
the retries are exhausted and the run fails. -/
theorem retry_backoff_and_exhaustion_witness :
    (handleStepError defaultWorkflowConfig (retryFixture 0) "a" "boom").2 =
        some ("a", 1000) ∧
      (handleStepError defaultWorkflowConfig (retryFixture 1) "a" "boom").2 =
        some ("a", 2000) ∧
      (handleStepError defaultWorkflowConfig (retryFixture 2) "a" "boom").2 =
        some ("a", 4000) ∧
      (handleStepError defaultWorkflowConfig (retryFixture 3) "a" "boom").2 =
        none ∧
      (handleStepError defaultWorkflowConfig (retryFixture 3) "a" "boom").1.run.status
        = RunStatus.FAILED := by
  refine ⟨?_, ?_, ?_, ?_, ?_⟩
  · exact ((retry_backoff_and_exhaustion (retryFixture 0) "a" "boom" _
      (by rfl)).1 (by decide)).1
  · exact ((retry_backoff_and_exhaustion (retryFixture 1) "a" "boom" _
      (by rfl)).1 (by decide)).1
  · exact ((retry_backoff_and_exhaustion (retryFixture 2) "a" "boom" _
      (by rfl)).1 (by decide)).1
  · exact ((retry_backoff_and_exhaustion (retryFixture 3) "a" "boom" _
      (by rfl)).2 (by decide)).1
  · exact ((retry_backoff_and_exhaustion (retryFixture 3) "a" "boom" _
      (by rfl)).2 (by decide)).2.1

/- ══════════════════════════════════════════════════════════════════
   C5 — step worker idempotency gate
   ══════════════════════════════════════════════════════════════════ -/

/-- C5: dispatching the same step job `(runId, stepKey)` to the step
worker is idempotent.  Before executing, the worker looks the step up
by `(runId, stepKey)` and drops the job without any state transition —
for any executor behaviour `exec` — when the step's status is COMPLETED
or SKIPPED, or when the run's status is CANCELLED or FAILED; hence once
a first dispatch has left the step or the run in one of those terminal
states, every further dispatch of the same job leaves the store
untouched, and at most one transition past PENDING occurs per
attempt. -/
theorem step_worker_idempotency_gate
    (exec : EngineDb → EngineDb) (db : EngineDb) (runId stepKey : String)
    (step : WorkflowStepRec)
    (h : findStep db.steps runId stepKey = some step) :
    ((step.status = StepStatus.COMPLETED ∨ step.status = StepStatus.SKIPPED) →
      processStep exec db runId stepKey = db) ∧
    (db.run.id = runId →
      (db.run.status = RunStatus.CANCELLED ∨ db.run.status = RunStatus.FAILED) →
        processStep exec db runId stepKey = db) ∧
    (step.status ≠ StepStatus.COMPLETED → step.status ≠ StepStatus.SKIPPED →
      db.run.id = runId →
      db.run.status ≠ RunStatus.CANCELLED → db.run.status ≠ RunStatus.FAILED →
        processStep exec db runId stepKey = exec db) := by
  refine ⟨?_, ?_, ?_⟩
  · intro hs
    simp only [processStep, h]
    rcases hs with hs | hs <;> simp [hs]
  · intro hid hrs
    simp only [processStep, h, hid]
    rcases hrs with hrs | hrs <;>
      rcases hc : step.status with _ | _ | _ | _ | _ <;> simp [hrs]
  · intro h1 h2 hid h3 h4
    simp only [processStep, h, hid]
    simp [h1, h2, h3, h4]

/-- Fixture for the idempotency gate: a COMPLETED step of a RUNNING
run. -/
def gateFixture : EngineDb :=
  { run := { id := "r1", tenantId := "t1", workflowId := "w1",
             status := RunStatus.RUNNING }
    steps :=
      [ { id := "st1", runId := "r1", stepKey := "a",
          type := StepType.TRANSFORM, status := StepStatus.COMPLETED,
          retryCount := 0, idempotencyKey := "r1:a:0" } ]
    definition := cyclicDefinition }

/-- Witness for the idempotency gate: re-dispatching the job of an
already COMPLETED step leaves the store untouched even under an
executor that would wreck the run row. -/
theorem step_worker_idempotency_gate_witness :
    processStep (fun db => { db with run := { db.run with
        status := RunStatus.FAILED } }) gateFixture "r1" "a" = gateFixture := by
  exact (step_worker_idempotency_gate _ gateFixture "r1" "a" _ (by rfl)).1
    (Or.inl (by rfl))

/- ══════════════════════════════════════════════════════════════════
   C7 — CONDITION successor selection
   ══════════════════════════════════════════════════════════════════ -/

/-- C7 (amended): when a CONDITION step completes, its successor list is
exactly the single key given by `selectedBranch` in its output —
`node.next` is ignored (the statement holds for every `next` list of the
node); if the chosen key is present in the definition's nodes map it is
enqueued with delay 0, and if it is absent nothing is enqueued and the
run's status is left unchanged — the run does not transition to
FAILED. -/
theorem condition_selected_branch_successor
    (db : EngineDb) (stepKey : String) (output : StepOutput)
    (step : WorkflowStepRec) (node : WorkflowNode) (b : String)
    (hs : findStep db.steps db.run.id stepKey = some step)
    (hn : findNode db.definition.nodes stepKey = some node)
    (ht : node.type = StepType.CONDITION)
    (hb : selectedBranchOf output = some b) :
    ((findNode db.definition.nodes b).isSome →
      (handleStepComplete db stepKey output).2 = [(b, 0)]) ∧
    (findNode db.definition.nodes b = none →
      (handleStepComplete db stepKey output).2 = [] ∧
        (handleStepComplete db stepKey output).1.run.status = db.run.status) := by
  constructor
  · intro hpresent
    simp [handleStepComplete, hs, hn, ht, hb, hpresent]
  · intro habsent
    simp [handleStepComplete, hs, hn, ht, hb, habsent]

/-- Fixture for the CONDITION-successor theorems: a two-node definition
whose CONDITION node `check` has completed; `hi` exists in the nodes
map, `ghost` does not. -/
def conditionFixture : EngineDb :=
  { run := { id := "r1", tenantId := "t1", workflowId := "w1",
             status := RunStatus.RUNNING }
    steps :=
      [ { id := "st1", runId := "r1", stepKey := "check",
          type := StepType.CONDITION, status := StepStatus.RUNNING,
          retryCount := 0, idempotencyKey := "r1:check:0" }
      , { id := "st2", runId := "r1", stepKey := "hi",
          type := StepType.TRANSFORM, status := StepStatus.PENDING,
          retryCount := 0, idempotencyKey := "r1:hi:0" } ]
    definition :=
      { metadata := { name := "cond", version := 1 }
        nodes :=
          [ ("check",
              { id := "check", type := StepType.CONDITION
                config := { expression := some "input.value > 10"
                            trueBranch := some "hi"
                            falseBranch := some "ghost" }
                next := [] })
          , ("hi",
              { id := "hi", type := StepType.TRANSFORM, config := {}
                next := [] }) ]
        edges := [ { fromKey := "check", toKey := "hi" } ]
        entrypoint := "check" } }

/-- Counterexample to C7 as stated: when the CONDITION output selects
the key "ghost", which is absent from the nodes map, the claim says the
run transitions to FAILED; in the code nothing is enqueued and the run
simply stays RUNNING. -/
theorem condition_missing_branch_does_not_fail_run :
    (handleStepComplete conditionFixture "check"
        (StepOutput.condition false "input.value > 10" (some "ghost"))).1.run.status
      = RunStatus.RUNNING ∧
    (handleStepComplete conditionFixture "check"
        (StepOutput.condition false "input.value > 10" (some "ghost"))).2 = [] := by
  constructor <;> rfl

/-- Witness for the CONDITION-successor theorem: selecting the existing
branch "hi" enqueues exactly it, with delay 0. -/
theorem condition_selected_branch_successor_witness :
    (handleStepComplete conditionFixture "check"
        (StepOutput.condition true "input.value > 10" (some "hi"))).2
      = [("hi", 0)] := by
  exact (condition_selected_branch_successor conditionFixture "check" _ _ _ "hi"
    (by rfl) (by rfl) (by rfl) (by rfl)).1 (by rfl)

/- ══════════════════════════════════════════════════════════════════
   C8 — DELAY execution
   ══════════════════════════════════════════════════════════════════ -/

/-- C8 (amended): executing a DELAY node never produces an error, the
effective wait is clamped to at most 30 000 ms, the wait is performed by
the worker itself awaiting a timer (no re-enqueue of the step), and the
output is `{delayed: true, delayMs}` with the unclamped configured
`delayMs` (default 1000). -/
theorem delay_executor_clamps_and_sleeps_in_worker (node : WorkflowNode) :
    executeDelay node =
        Except.ok ([WorkerEffect.sleep (min (node.config.delayMs.getD 1000) 30000)],
          StepOutput.delayed (node.config.delayMs.getD 1000)) ∧
      min (node.config.delayMs.getD 1000) 30000 ≤ 30000 ∧
      ∀ effects output, executeDelay node = Except.ok (effects, output) →
        effects.any isEnqueueEffect = false := by
  refine ⟨rfl, Nat.min_le_right _ _, ?_⟩
  intro effects output h
  simp only [executeDelay, Except.ok.injEq, Prod.mk.injEq] at h
  obtain ⟨rfl, rfl⟩ := h
  rfl

/-- A DELAY node configured with delayMs 10000, as in scenario S6 of the
spec (a 10 s delay). -/
def delayNode10s : WorkflowNode :=
  { id := "wait", type := StepType.DELAY
    config := { delayMs := some 10000 }, next := [] }

/-- Counterexample to C8 as stated: the claim says the wait is realized
by re-enqueuing the step with a delay so that the worker does not hold
its slot for delayMs.  Executing the 10 s DELAY node produces no enqueue
effect at all; the sole effect is a 10 000 ms wait awaited by the worker
itself. -/
theorem delay_executor_does_not_reenqueue :
    executeDelay delayNode10s =
        Except.ok ([WorkerEffect.sleep 10000], StepOutput.delayed 10000) ∧
      [WorkerEffect.sleep 10000].any isEnqueueEffect = false := by
  constructor <;> rfl

/- ══════════════════════════════════════════════════════════════════
   Builder domain data model
   (saas-website-builder/src/types/index.ts)
   ══════════════════════════════════════════════════════════════════ -/

/-- Hero section props, from `HeroSectionProps` in
saas-website-builder/src/types/index.ts.  Optional/nullable string
fields become `Option String`.  `alignment` is the TS union
"left" | "center" | "right"; the renderer reads it with the JS-truthy
default `props.alignment || "center"`, so it is kept as a `String`
here. -/
structure HeroSectionProps where
  heading : String
  subheading : Option String := none
  ctaText : Option String := none
  ctaLink : Option String := none
  backgroundImage : Option String := none
  alignment : String
deriving DecidableEq, Repr

/-- Text section props, from `TextSectionProps`. -/
structure TextSectionProps where
  heading : Option String := none
  body : String
  alignment : String
deriving DecidableEq, Repr

/-- A feature grid item, from `FeatureItem`. -/
structure FeatureItem where
  icon : String
  title : String
  description : String
deriving DecidableEq, Repr

/-- Features section props, from `FeaturesSectionProps`; `columns` is
the TS union 2 | 3 | 4, read with the JS-truthy default
`props.columns || 3`, so kept as `Nat`. -/
structure FeaturesSectionProps where
  heading : Option String := none
  columns : Nat
  items : List FeatureItem
deriving DecidableEq, Repr

/-- A cards grid item, from `CardItem`. -/
structure CardItem where
  title : String
  description : String
  image : Option String := none
  link : Option String := none
deriving DecidableEq, Repr

/-- Cards section props, from `CardsSectionProps`. -/
structure CardsSectionProps where
  heading : Option String := none
  columns : Nat
  items : List CardItem
deriving DecidableEq, Repr

/-- Image section props, from `ImageSectionProps`. -/
structure ImageSectionProps where
  src : String
  alt : String
  caption : Option String := none
  fullWidth : Bool
deriving DecidableEq, Repr

/-- CTA section props, from `CtaSectionProps`; `variant` is the TS
union "primary" | "secondary" | "outline", read with the default
`props.variant || "primary"`. -/
structure CtaSectionProps where
  heading : String
  description : Option String := none
  buttonText : String
  buttonLink : String
  variant : String
deriving DecidableEq, Repr

/-- A tagged content section, from the TS union `ContentSection`.  Page
content reaches the renderer through an unchecked JSON cast
(`page.content as unknown as PageContent` in build-engine.ts), so at
runtime the `type` tag can be a string outside the union; the
`unknownType` constructor stands for such a value and is what the
`default` arm of `renderSection`'s switch receives. -/
inductive ContentSection where
  | hero (props : HeroSectionProps)
  | text (props : TextSectionProps)
  | features (props : FeaturesSectionProps)
  | cards (props : CardsSectionProps)
  | image (props : ImageSectionProps)
  | cta (props : CtaSectionProps)
  | unknownType
deriving DecidableEq, Repr

/-- Page content, from `PageContent`. -/
structure PageContent where
  sections : List ContentSection
deriving DecidableEq, Repr

/-- Theme settings, from `ThemeSettings`. -/
structure ThemeSettings where
  primaryColor : String
  secondaryColor : String
  backgroundColor : String
  textColor : String
  fontHeading : String
  fontBody : String
deriving DecidableEq, Repr

/-- A navigation item, from `NavigationItem`. -/
structure NavigationItem where
  label : String
  path : String
deriving DecidableEq, Repr

/-- Footer settings, from `FooterSettings`. -/
structure FooterSettings where
  text : String
  links : List NavigationItem
deriving DecidableEq, Repr

/-- Site settings, from `SiteSettings`.  The TS interface declares
`theme` and `navigation` as required, but the values reaching the
renderer come from the unchecked cast `(site.settings ?? {}) as unknown
as SiteSettings` and the renderer reads them with `??` defaults, so
they are `Option`s here, matching the runtime shape. -/
structure SiteSettings where
  theme : Option ThemeSettings := none
  navigation : Option (List NavigationItem) := none
  footer : Option FooterSettings := none
deriving DecidableEq, Repr

/-- The renderer's page input, from the `PageData` interface in
renderer.ts lines 14-20.  `content` is optional because the renderer
reads it as `page.content?.sections ?? []`. -/
structure PageData where
  path : String
  title : String
  seoTitle : String
  seoDescription : String
  content : Option PageContent := none
deriving DecidableEq, Repr

/-- The renderer's site input, from the `SiteData` interface in
renderer.ts lines 22-25. -/
structure SiteData where
  name : String
  subdomain : String
deriving DecidableEq, Repr

/- ══════════════════════════════════════════════════════════════════
   JS-semantics helpers for the renderer embedding
   ══════════════════════════════════════════════════════════════════ -/

/-- JS `a || b` on strings: the empty string is falsy. -/
def jsOr (a b : String) : String := if a.isEmpty then b else a

/-- JS truthiness of an optional string (`props.x ? ... : ...`): present
and non-empty. -/
def strTruthy (o : Option String) : Bool :=
  match o with
  | some s => !s.isEmpty
  | none => false

/-- The double-quote character (written via its code point to keep it
out of the surrounding string syntax). -/
def quoteChar : Char := Char.ofNat 34

/-- The apostrophe character. -/
def apostropheChar : Char := Char.ofNat 39

/-- Replace every occurrence of the character `c` in a character list by
the replacement `r`: the semantics of the JS global single-character
regex replace `str.replace(/c/g, r)`. -/
def replChar (c : Char) (r : List Char) (l : List Char) : List Char :=
  (l.map (fun ch => if ch = c then r else [ch])).flatten

/-- Embedding of `escapeHtml` (renderer.ts lines 387-394) on character
lists: the chained global replaces, ampersand first, then `<`, `>`,
double quote, and apostrophe. -/
def escapeHtmlL (l : List Char) : List Char :=
  replChar apostropheChar ("&#039;".data)
    (replChar quoteChar ("&quot;".data)
      (replChar '>' ("&gt;".data)
        (replChar '<' ("&lt;".data)
          (replChar '&' ("&amp;".data) l))))

/-- Embedding of `escapeHtml` from renderer.ts lines 387-394. -/
def escapeHtml (s : String) : String := String.mk (escapeHtmlL s.data)

/-- JS whitespace test for `String.prototype.trim`, restricted to the
ASCII whitespace that occurs in the renderer's templates. -/
def isJsWhitespace (c : Char) : Bool :=
  c = ' ' || c = '\n' || c = '\t' || c = '\r'

/-- Leading-whitespace removal of JS trim. -/
def trimStartL (l : List Char) : List Char := l.dropWhile isJsWhitespace

/-- Trailing-whitespace removal of JS trim. -/
def trimEndL (l : List Char) : List Char :=
  (l.reverse.dropWhile isJsWhitespace).reverse

/-- JS `String.prototype.trim()`. -/
def jsTrim (s : String) : String := String.mk (trimEndL (trimStartL s.data))

/-- Uppercase hexadecimal digit. -/
def hexDigit (n : Nat) : Char := "0123456789ABCDEF".data.getD n '0'

/-- UTF-8 bytes of a code point. -/
def utf8Bytes (n : Nat) : List Nat :=
  if n < 128 then [n]
  else if n < 2048 then [192 + n / 64, 128 + n % 64]
  else if n < 65536 then [224 + n / 4096, 128 + n / 64 % 64, 128 + n % 64]
  else [240 + n / 262144, 128 + n / 4096 % 64, 128 + n / 64 % 64, 128 + n % 64]

/-- Characters `encodeURIComponent` leaves unescaped: alphanumerics and
`- _ . ! ~ * ' ( )`. -/
def isUriUnreservedChar (c : Char) : Bool :=
  ("A" ≤ String.singleton c && String.singleton c ≤ "Z")
    || ("a" ≤ String.singleton c && String.singleton c ≤ "z")
    || ("0" ≤ String.singleton c && String.singleton c ≤ "9")
    || c = '-' || c = '_' || c = '.' || c = '!' || c = '~' || c = '*'
    || c = apostropheChar || c = '(' || c = ')'

/-- The JS global `encodeURIComponent`, used by the renderer for the
Google-Fonts link: percent-encodes the UTF-8 bytes of every character
outside the unreserved set. -/
def encodeURIComponent (s : String) : String :=
  String.join (s.data.map (fun c =>
    if isUriUnreservedChar c then String.singleton c
    else String.join ((utf8Bytes c.toNat).map (fun b =>
      String.mk ['%', hexDigit (b / 16), hexDigit (b % 16)]))))

/- ══════════════════════════════════════════════════════════════════
   HTML renderer
   (saas-website-builder/src/services/renderer.ts)
   ══════════════════════════════════════════════════════════════════ -/

/-- Embedding of `getIconEmoji` (renderer.ts lines 365-385): the known
icon-name table with the pin emoji as default. -/
def getIconEmoji (iconName : String) : String :=
  match iconName with
  | "code" => "💻"
  | "palette" => "🎨"
  | "rocket" => "🚀"
  | "star" => "⭐"
  | "shield" => "🛡️"
  | "zap" => "⚡"
  | "heart" => "❤️"
  | "globe" => "🌍"
  | "mail" => "✉️"
  | "phone" => "📱"
  | "settings" => "⚙️"
  | "check" => "✅"
  | "chart" => "📊"
  | "lock" => "🔒"
  | "cloud" => "☁️"
  | "users" => "👥"
  | _ => "📌"

/-- Template text of `generateCSS` up to the primaryColor hole. -/
def cssLead : String :=
  "\n    *, *::before, *::after \x7b margin: 0; padding: 0; box-sizing: border-box; \x7d\n    :root \x7b\n      --color-primary: "

/-- Template text between the primaryColor and secondaryColor holes. -/
def cssAfterPrimary : String :=
  ";\n      --color-secondary: "

/-- Template text between the secondaryColor and backgroundColor holes. -/
def cssAfterSecondary : String :=
  ";\n      --color-bg: "

/-- Template text between the backgroundColor and textColor holes. -/
def cssAfterBg : String :=
  ";\n      --color-text: "

/-- Template text between the textColor and fontHeading holes. -/
def cssAfterText : String :=
  ";\n      --font-heading: \x27"

/-- Template text between the fontHeading and fontBody holes. -/
def cssAfterFontHeading : String :=
  "\x27, system-ui, sans-serif;\n      --font-body: \x27"

/-- The static CSS rules after the fontBody hole, up to the final closing brace. -/
def cssStaticRules : String :=
  "\x27, system-ui, sans-serif;\n    \x7d\n    body \x7b\n      font-family: var(--font-body);\n      color: var(--color-text);\n      background-color: var(--color-bg);\n      line-height: 1.6;\n      -webkit-font-smoothing: antialiased;\n    \x7d\n    h1, h2, h3, h4, h5, h6 \x7b font-family: var(--font-heading); line-height: 1.2; \x7d\n    a \x7b color: var(--color-primary); text-decoration: none; \x7d\n    a:hover \x7b text-decoration: underline; \x7d\n    img \x7b max-width: 100%; height: auto; display: block; \x7d\n\n    /* Navigation */\n    .site-nav \x7b\n      display: flex; align-items: center; justify-content: space-between;\n      max-width: 1200px; margin: 0 auto; padding: 1rem 2rem;\n    \x7d\n    .site-nav__brand \x7b font-family: var(--font-heading); font-size: 1.25rem; font-weight: 700; color: var(--color-text); \x7d\n    .site-nav__links \x7b display: flex; gap: 1.5rem; list-style: none; \x7d\n    .site-nav__link \x7b color: var(--color-text); font-size: 0.95rem; opacity: 0.8; transition: opacity 0.2s; \x7d\n    .site-nav__link:hover, .site-nav__link--active \x7b opacity: 1; text-decoration: none; \x7d\n    .site-nav__link--active \x7b font-weight: 600; border-bottom: 2px solid var(--color-primary); \x7d\n    .site-header \x7b border-bottom: 1px solid #e5e7eb; \x7d\n\n    /* Sections */\n    .section \x7b padding: 4rem 2rem; \x7d\n    .section__inner \x7b max-width: 1200px; margin: 0 auto; \x7d\n    .section__heading \x7b\n      font-size: 2rem; font-weight: 700; margin-bottom: 1.5rem;\n    \x7d\n\n    /* Hero */\n    .hero \x7b\n      text-align: center; padding: 6rem 2rem;\n      background: linear-gradient(135deg, var(--color-primary), var(--color-secondary));\n      color: #fff;\n    \x7d\n    .hero--left \x7b text-align: left; \x7d\n    .hero--right \x7b text-align: right; \x7d\n    .hero__heading \x7b font-size: 3rem; font-weight: 700; margin-bottom: 1rem; \x7d\n    .hero__subheading \x7b font-size: 1.25rem; opacity: 0.9; margin-bottom: 2rem; max-width: 600px; \x7d\n    .hero--center .hero__subheading \x7b margin-left: auto; margin-right: auto; \x7d\n    .hero__cta \x7b\n      display: inline-block; padding: 0.75rem 2rem; font-size: 1rem; font-weight: 600;\n      background: #fff; color: var(--color-primary); border-radius: 0.5rem;\n      transition: transform 0.2s, box-shadow 0.2s;\n    \x7d\n    .hero__cta:hover \x7b transform: translateY(-2px); box-shadow: 0 4px 12px rgba(0,0,0,0.15); text-decoration: none; \x7d\n\n    /* Text block */\n    .text-block__body \x7b font-size: 1.1rem; line-height: 1.8; max-width: 800px; \x7d\n    .text-block--center \x7b text-align: center; \x7d\n    .text-block--center .text-block__body \x7b margin: 0 auto; \x7d\n    .text-block--right \x7b text-align: right; \x7d\n    .text-block--right .text-block__body \x7b margin-left: auto; \x7d\n\n    /* Feature grid */\n    .features__grid \x7b display: grid; gap: 2rem; \x7d\n    .features__grid--2 \x7b grid-template-columns: repeat(2, 1fr); \x7d\n    .features__grid--3 \x7b grid-template-columns: repeat(3, 1fr); \x7d\n    .features__grid--4 \x7b grid-template-columns: repeat(4, 1fr); \x7d\n    .feature-card \x7b padding: 2rem; border: 1px solid #e5e7eb; border-radius: 0.75rem; \x7d\n    .feature-card__icon \x7b font-size: 2rem; margin-bottom: 1rem; \x7d\n    .feature-card__title \x7b font-size: 1.25rem; font-weight: 600; margin-bottom: 0.5rem; \x7d\n    .feature-card__desc \x7b font-size: 0.95rem; opacity: 0.8; line-height: 1.6; \x7d\n\n    /* Cards */\n    .cards__grid \x7b display: grid; gap: 2rem; \x7d\n    .cards__grid--2 \x7b grid-template-columns: repeat(2, 1fr); \x7d\n    .cards__grid--3 \x7b grid-template-columns: repeat(3, 1fr); \x7d\n    .cards__grid--4 \x7b grid-template-columns: repeat(4, 1fr); \x7d\n    .card \x7b border: 1px solid #e5e7eb; border-radius: 0.75rem; overflow: hidden; \x7d\n    .card__image \x7b width: 100%; height: 200px; object-fit: cover; \x7d\n    .card__body \x7b padding: 1.5rem; \x7d\n    .card__title \x7b font-size: 1.1rem; font-weight: 600; margin-bottom: 0.5rem; \x7d\n    .card__desc \x7b font-size: 0.95rem; opacity: 0.8; line-height: 1.6; \x7d\n\n    /* Image */\n    .image-section \x7b text-align: center; \x7d\n    .image-section__img \x7b border-radius: 0.5rem; margin: 0 auto; \x7d\n    .image-section--full .image-section__img \x7b width: 100%; border-radius: 0; \x7d\n    .image-section__caption \x7b margin-top: 0.75rem; font-size: 0.9rem; opacity: 0.7; \x7d\n\n    /* CTA */\n    .cta-section \x7b text-align: center; padding: 4rem 2rem; background: #f9fafb; border-radius: 1rem; \x7d\n    .cta-section__heading \x7b font-size: 2rem; font-weight: 700; margin-bottom: 0.75rem; \x7d\n    .cta-section__desc \x7b font-size: 1.1rem; opacity: 0.8; margin-bottom: 2rem; max-width: 600px; margin-left: auto; margin-right: auto; \x7d\n    .cta-section__btn \x7b\n      display: inline-block; padding: 0.875rem 2.5rem; font-size: 1rem; font-weight: 600;\n      border-radius: 0.5rem; transition: transform 0.2s, box-shadow 0.2s;\n    \x7d\n    .cta-section__btn:hover \x7b transform: translateY(-2px); box-shadow: 0 4px 12px rgba(0,0,0,0.15); text-decoration: none; \x7d\n    .cta-section__btn--primary \x7b background: var(--color-primary); color: #fff; \x7d\n    .cta-section__btn--secondary \x7b background: var(--color-secondary); color: #fff; \x7d\n    .cta-section__btn--outline \x7b border: 2px solid var(--color-primary); color: var(--color-primary); background: transparent; \x7d\n\n    /* Footer */\n    .site-footer \x7b border-top: 1px solid #e5e7eb; padding: 2rem; text-align: center; font-size: 0.9rem; opacity: 0.7; \x7d\n    .site-footer__links \x7b display: flex; justify-content: center; gap: 1.5rem; margin-top: 0.75rem; list-style: none; \x7d\n\n    /* Responsive */\n    @media (max-width: 768px) \x7b\n      .hero__heading \x7b font-size: 2rem; \x7d\n      .hero__subheading \x7b font-size: 1rem; \x7d\n      .features__grid--3, .features__grid--4, .cards__grid--3, .cards__grid--4 \x7b grid-template-columns: repeat(2, 1fr); \x7d\n      .site-nav \x7b flex-direction: column; gap: 1rem; \x7d\n      .section \x7b padding: 3rem 1rem; \x7d\n    \x7d\n    @media (max-width: 480px) \x7b\n      .features__grid--2, .features__grid--3, .features__grid--4,\n      .cards__grid--2, .cards__grid--3, .cards__grid--4 \x7b grid-template-columns: 1fr; \x7d"

/-- The final closing brace and trailing whitespace of the template. -/
def cssClose : String :=
  "\n    \x7d\n  "

/-- Embedding of `generateCSS` (renderer.ts lines 76-200): the style
template with the six theme values interpolated verbatim into the
`:root` custom properties (and the two font names additionally into
quoted `font-family` stacks), followed by `.trim()`.  The template text
is split into the named literals above only at the interpolation holes,
plus one split of the static tail before its final closing brace
(`cssStaticRules ++ cssClose` is the source's static CSS text
unchanged). -/
def generateCSS (theme : ThemeSettings) : String :=
  jsTrim (cssLead ++ theme.primaryColor ++ cssAfterPrimary
    ++ theme.secondaryColor ++ cssAfterSecondary
    ++ theme.backgroundColor ++ cssAfterBg
    ++ theme.textColor ++ cssAfterText
    ++ theme.fontHeading ++ cssAfterFontHeading
    ++ theme.fontBody ++ cssStaticRules ++ cssClose)

/-- Embedding of `renderNavigation` (renderer.ts lines 202-226): empty
item list renders nothing; each item renders an escaped link, marked
active when its path equals the current page path; items are joined
with the source's newline-and-indent separator. -/
def renderNavigation (items : List NavigationItem) (siteName : String)
    (_theme : ThemeSettings) (currentPath : String) : String :=
  if items.length = 0 then ""
  else
    let links := String.intercalate "\n          " (items.map (fun item =>
      let active := if item.path = currentPath then " site-nav__link--active" else ""
      "<li><a href=\"" ++ escapeHtml item.path ++ "\" class=\"site-nav__link"
        ++ active ++ "\">" ++ escapeHtml item.label ++ "</a></li>"))
    "\n  <header class=\"site-header\">\n    <nav class=\"site-nav\">\n      <a href=\"/\" class=\"site-nav__brand\">"
      ++ escapeHtml siteName
      ++ "</a>\n      <ul class=\"site-nav__links\">\n          "
      ++ links
      ++ "\n      </ul>\n    </nav>\n  </header>"

/-- Embedding of `renderFooter` (renderer.ts lines 228-238). -/
def renderFooter (text : String) (links : List NavigationItem)
    (_theme : ThemeSettings) : String :=
  let linkItems := String.intercalate "\n          " (links.map (fun l =>
    "<li><a href=\"" ++ escapeHtml l.path ++ "\">" ++ escapeHtml l.label
      ++ "</a></li>"))
  "\n  <footer class=\"site-footer\">\n    <p>" ++ escapeHtml text ++ "</p>\n    "
    ++ (if links.length != 0 then
          "<ul class=\"site-footer__links\">\n          " ++ linkItems
            ++ "\n      </ul>"
        else "")
    ++ "\n  </footer>"

/-- Embedding of `renderHero` (renderer.ts lines 259-276). -/
def renderHero (props : HeroSectionProps) : String :=
  let alignClass := "hero--" ++ jsOr props.alignment "center"
  let bgStyle :=
    if strTruthy props.backgroundImage then
      " style=\"background-image: url(\x27"
        ++ escapeHtml (props.backgroundImage.getD "")
        ++ "\x27); background-size: cover; background-position: center;\""
    else ""
  let ctaHtml :=
    if strTruthy props.ctaText && strTruthy props.ctaLink then
      "\n      <a href=\"" ++ escapeHtml (props.ctaLink.getD "")
        ++ "\" class=\"hero__cta\">" ++ escapeHtml (props.ctaText.getD "")
        ++ "</a>"
    else ""
  "\n    <section class=\"hero " ++ alignClass ++ "\"" ++ bgStyle
    ++ ">\n      <div class=\"section__inner\">\n        <h1 class=\"hero__heading\">"
    ++ escapeHtml props.heading ++ "</h1>\n        "
    ++ (if strTruthy props.subheading then
          "<p class=\"hero__subheading\">" ++ escapeHtml (props.subheading.getD "")
            ++ "</p>"
        else "")
    ++ ctaHtml ++ "\n      </div>\n    </section>"

/-- Embedding of `renderText` (renderer.ts lines 278-288). -/
def renderText (props : TextSectionProps) : String :=
  let alignClass := "text-block--" ++ jsOr props.alignment "left"
  "\n    <section class=\"section text-block " ++ alignClass
    ++ "\">\n      <div class=\"section__inner\">\n        "
    ++ (if strTruthy props.heading then
          "<h2 class=\"section__heading\">" ++ escapeHtml (props.heading.getD "")
            ++ "</h2>"
        else "")
    ++ "\n        <p class=\"text-block__body\">" ++ escapeHtml props.body
    ++ "</p>\n      </div>\n    </section>"

/-- Embedding of `renderFeatures` (renderer.ts lines 290-312);
`props.columns || 3` makes a zero column count fall back to 3. -/
def renderFeatures (props : FeaturesSectionProps) : String :=
  let columns := if props.columns = 0 then 3 else props.columns
  let items := String.intercalate "\n" (props.items.map (fun item =>
    "\n        <div class=\"feature-card\">\n          <div class=\"feature-card__icon\">"
      ++ getIconEmoji item.icon
      ++ "</div>\n          <h3 class=\"feature-card__title\">"
      ++ escapeHtml item.title
      ++ "</h3>\n          <p class=\"feature-card__desc\">"
      ++ escapeHtml item.description
      ++ "</p>\n        </div>"))
  "\n    <section class=\"section\">\n      <div class=\"section__inner\">\n        "
    ++ (if strTruthy props.heading then
          "<h2 class=\"section__heading\">" ++ escapeHtml (props.heading.getD "")
            ++ "</h2>"
        else "")
    ++ "\n        <div class=\"features__grid features__grid--" ++ toString columns
    ++ "\">\n          " ++ items
    ++ "\n        </div>\n      </div>\n    </section>"

/-- Embedding of `renderCards` (renderer.ts lines 314-338);
`props.columns || 2` makes a zero column count fall back to 2. -/
def renderCards (props : CardsSectionProps) : String :=
  let columns := if props.columns = 0 then 2 else props.columns
  let items := String.intercalate "\n" (props.items.map (fun item =>
    "\n        <div class=\"card\">\n          "
      ++ (if strTruthy item.image then
            "<img class=\"card__image\" src=\"" ++ escapeHtml (item.image.getD "")
              ++ "\" alt=\"" ++ escapeHtml item.title ++ "\">"
          else "")
      ++ "\n          <div class=\"card__body\">\n            <h3 class=\"card__title\">"
      ++ (if strTruthy item.link then
            "<a href=\"" ++ escapeHtml (item.link.getD "") ++ "\">"
              ++ escapeHtml item.title ++ "</a>"
          else escapeHtml item.title)
      ++ "</h3>\n            <p class=\"card__desc\">" ++ escapeHtml item.description
      ++ "</p>\n          </div>\n        </div>"))
  "\n    <section class=\"section\">\n      <div class=\"section__inner\">\n        "
    ++ (if strTruthy props.heading then
          "<h2 class=\"section__heading\">" ++ escapeHtml (props.heading.getD "")
            ++ "</h2>"
        else "")
    ++ "\n        <div class=\"cards__grid cards__grid--" ++ toString columns
    ++ "\">\n          " ++ items
    ++ "\n        </div>\n      </div>\n    </section>"

/-- Embedding of `renderImage` (renderer.ts lines 340-350). -/
def renderImage (props : ImageSectionProps) : String :=
  let fullClass := if props.fullWidth then " image-section--full" else ""
  "\n    <section class=\"section image-section" ++ fullClass
    ++ "\">\n      <div class=\"section__inner\">\n        <img class=\"image-section__img\" src=\""
    ++ escapeHtml props.src ++ "\" alt=\"" ++ escapeHtml props.alt ++ "\">\n        "
    ++ (if strTruthy props.caption then
          "<p class=\"image-section__caption\">" ++ escapeHtml (props.caption.getD "")
            ++ "</p>"
        else "")
    ++ "\n      </div>\n    </section>"

/-- Embedding of `renderCta` (renderer.ts lines 352-363). -/
def renderCta (props : CtaSectionProps) (_theme : ThemeSettings) : String :=
  let variant := jsOr props.variant "primary"
  "\n    <section class=\"section\">\n      <div class=\"section__inner cta-section\">\n        <h2 class=\"cta-section__heading\">"
    ++ escapeHtml props.heading ++ "</h2>\n        "
    ++ (if strTruthy props.description then
          "<p class=\"cta-section__desc\">" ++ escapeHtml (props.description.getD "")
            ++ "</p>"
        else "")
    ++ "\n        <a href=\"" ++ escapeHtml props.buttonLink
    ++ "\" class=\"cta-section__btn cta-section__btn--" ++ variant ++ "\">"
    ++ escapeHtml props.buttonText
    ++ "</a>\n      </div>\n    </section>"

/-- Embedding of `renderSection` (renderer.ts lines 240-257): dispatch
on the section's type tag; the switch's default arm emits the visible
unknown-type comment. -/
def renderSection (sec : ContentSection) (theme : ThemeSettings) : String :=
  match sec with
  | ContentSection.hero props => renderHero props
  | ContentSection.text props => renderText props
  | ContentSection.features props => renderFeatures props
  | ContentSection.cards props => renderCards props
  | ContentSection.image props => renderImage props
  | ContentSection.cta props => renderCta props theme
  | ContentSection.unknownType => "<!-- Unknown section type -->"

/-- The built-in default theme of `renderPage` (renderer.ts lines
31-38), used when the settings carry no theme. -/
def defaultRendererTheme : ThemeSettings :=
  { primaryColor := "#2563eb"
    secondaryColor := "#7c3aed"
    backgroundColor := "#ffffff"
    textColor := "#1f2937"
    fontHeading := "Inter"
    fontBody := "Inter" }

/-- Embedding of `renderPage` (renderer.ts lines 30-74): resolve the
theme (`settings.theme ?? {...defaults}`), navigation
(`settings.navigation ?? []`), footer and sections
(`page.content?.sections ?? []`), render the sections in order joined by
newlines, and assemble the HTML5 document template with every
user-supplied text field passed through `escapeHtml`, the font names
through `encodeURIComponent` in the fonts link, and the theme spliced
into the style block by `generateCSS`. -/
def renderPage (page : PageData) (site : SiteData) (settings : SiteSettings) :
    String :=
  let theme := settings.theme.getD defaultRendererTheme
  let navigation := settings.navigation.getD []
  let footer := settings.footer
  let sections := (page.content.map PageContent.sections).getD []
  let renderedSections :=
    String.intercalate "\n" (sections.map (fun s => renderSection s theme))
  let navHtml := renderNavigation navigation site.name theme page.path
  let footerHtml :=
    match footer with
    | some f => renderFooter f.text f.links theme
    | none => ""
  "<!DOCTYPE html>\n<html lang=\"en\">\n<head>\n  <meta charset=\"UTF-8\">\n  <meta name=\"viewport\" content=\"width=device-width, initial-scale=1.0\">\n  <title>" ++
  escapeHtml (jsOr page.seoTitle page.title) ++
  "</title>\n  <meta name=\"description\" content=\"" ++
  escapeHtml (jsOr page.seoDescription "") ++
  "\">\n  <meta property=\"og:title\" content=\"" ++
  escapeHtml (jsOr page.seoTitle page.title) ++
  "\">\n  <meta property=\"og:description\" content=\"" ++
  escapeHtml (jsOr page.seoDescription "") ++
  "\">\n  <meta property=\"og:type\" content=\"website\">\n  <meta name=\"generator\" content=\"SaaS Website Builder\">\n  <link rel=\"preconnect\" href=\"https://fonts.googleapis.com\">\n  <link rel=\"preconnect\" href=\"https://fonts.gstatic.com\" crossorigin>\n  <link href=\"https://fonts.googleapis.com/css2?family=" ++
  encodeURIComponent theme.fontHeading ++
  ":wght@400;600;700&family=" ++
  encodeURIComponent theme.fontBody ++
  ":wght@400;500&display=swap\" rel=\"stylesheet\">\n  <style>\n    " ++
  generateCSS theme ++
  "\n  </style>\n</head>\n<body>\n  " ++
  navHtml ++
  "\n  <main>\n    " ++
  renderedSections ++
  "\n  </main>\n  " ++
  footerHtml ++
  "\n</body>\n</html>"

/- ══════════════════════════════════════════════════════════════════
   Builder relational model
   (prisma models Site / Page / SiteVersion / BuildJob as used by
   saas-website-builder/src/services/build-engine.ts and
   src/api/routes/sites.ts)
   ══════════════════════════════════════════════════════════════════ -/

/-- SiteVersion status, from the prisma enum used in build-engine.ts. -/
inductive VersionStatus where
  | BUILDING
  | READY
  | FAILED
  | SUPERSEDED
deriving DecidableEq, Repr

/-- BuildJob status, from the prisma enum used in build-engine.ts. -/
inductive JobStatus where
  | QUEUED
  | PROCESSING
  | COMPLETED
  | FAILED
deriving DecidableEq, Repr

/-- A Site row.  `settings` feeds the renderer; `activeVersionId` is
the activation pointer the build/rollback transactions flip. -/
structure SiteRec where
  id : String
  tenantId : String
  name : String
  slug : String
  subdomain : String
  settings : SiteSettings := {}
  activeVersionId : Option String := none
deriving DecidableEq, Repr

/-- A Page row. -/
structure PageRec where
  id : String
  siteId : String
  path : String
  title : String
  content : Option PageContent := none
  seoTitle : Option String := none
  seoDescription : Option String := none
  isPublished : Bool
  sortOrder : Int := 0
deriving DecidableEq, Repr

/-- A SiteVersion row.  Timestamp and duration columns are not
modelled; `manifestHash` and `pageCount` are kept because the READY
transaction writes them. -/
structure SiteVersionRec where
  id : String
  siteId : String
  version : Nat
  s3Dir : String
  status : VersionStatus
  pageCount : Nat := 0
  assetSize : Nat := 0
  manifestHash : Option String := none
deriving DecidableEq, Repr

/-- A BuildJob row. -/
structure BuildJobRec where
  id : String
  siteVersionId : String
  tenantId : String
  status : JobStatus
  retryCount : Nat := 0
  error : Option String := none
deriving DecidableEq, Repr

/-- The slice of the relational store the builder operations touch. -/
structure BuilderDb where
  sites : List SiteRec
  pages : List PageRec
  versions : List SiteVersionRec
  jobs : List BuildJobRec
deriving DecidableEq, Repr

/-- prisma `siteVersion.findFirst({where: {id, siteId}})`. -/
def findVersion (db : BuilderDb) (id siteId : String) :
    Option SiteVersionRec :=
  db.versions.find? (fun v => v.id = id && v.siteId = siteId)

/-- prisma `site.findUnique({where: {id}})`. -/
def findSite (db : BuilderDb) (id : String) : Option SiteRec :=
  db.sites.find? (fun s => s.id = id)

/-- prisma `site.findFirst({where: {id, tenantId}})`, the tenant-scoped
lookup every sites route performs. -/
def findSiteForTenant (db : BuilderDb) (id tenantId : String) :
    Option SiteRec :=
  db.sites.find? (fun s => s.id = id && s.tenantId = tenantId)

/-- prisma `buildJob.findUnique({where: {id}})`. -/
def findJob (db : BuilderDb) (id : String) : Option BuildJobRec :=
  db.jobs.find? (fun j => j.id = id)

/-- Rewrite the version row with the given id. -/
def updateVersionById (versions : List SiteVersionRec) (id : String)
    (f : SiteVersionRec → SiteVersionRec) : List SiteVersionRec :=
  versions.map (fun v => if v.id = id then f v else v)

/-- Rewrite the job row with the given id. -/
def updateJobById (jobs : List BuildJobRec) (id : String)
    (f : BuildJobRec → BuildJobRec) : List BuildJobRec :=
  jobs.map (fun j => if j.id = id then f j else j)

/-- Rewrite the site row with the given id. -/
def updateSiteById (sites : List SiteRec) (id : String)
    (f : SiteRec → SiteRec) : List SiteRec :=
  sites.map (fun s => if s.id = id then f s else s)

/-- The published pages of a site ordered by `sortOrder` ascending, as
loaded by `executeBuild`'s include
(`pages: {where: {isPublished: true}, orderBy: {sortOrder: "asc"}}`).
Insertion sort is stable for a total order, matching the database's
ordered scan. -/
def publishedPagesOf (db : BuilderDb) (siteId : String) : List PageRec :=
  List.insertionSort (fun a b => a.sortOrder ≤ b.sortOrder)
    (db.pages.filter (fun p => p.siteId = siteId && p.isPublished))

/-- `page.path === "/" ? "index.html" : `${page.path.slice(1)}/index.html``
from executeBuild step 1 (build-engine.ts line 147). -/
def pageFileName (path : String) : String :=
  if path = "/" then "index.html" else path.drop 1 ++ "/index.html"

/-- A manifest page entry, from `ManifestPage` in
saas-website-builder/src/types/index.ts. -/
structure ManifestPage where
  path : String
  s3Key : String
  title : String
  hash : String
  size : Nat
deriving DecidableEq, Repr

/-- The build manifest, from `BuildManifest` in
saas-website-builder/src/types/index.ts; `generatedAt` (a wall-clock
timestamp) and the always-empty `assets` array are omitted. -/
structure BuildManifest where
  version : Nat
  siteId : String
  tenantId : String
  pages : List ManifestPage
  totalSize : Nat
  checksum : String
deriving DecidableEq, Repr

/- ══════════════════════════════════════════════════════════════════
   Build execution
   (saas-website-builder/src/services/build-engine.ts, executeBuild
   lines 98-285)
   ══════════════════════════════════════════════════════════════════ -/

/-- The renderer input `executeBuild` assembles for a page row
(build-engine.ts lines 135-145): `seoTitle ?? title`,
`seoDescription ?? ""`, and the page's JSON content. -/
def pageDataOf (page : PageRec) : PageData :=
  { path := page.path
    title := page.title
    seoTitle := page.seoTitle.getD page.title
    seoDescription := page.seoDescription.getD ""
    content := page.content }

/-- The fixed 404 page `executeBuild` renders (build-engine.ts lines
166-190): a single centered hero section. -/
def notFoundPageData : PageData :=
  { path := "/404"
    title := "Page Not Found"
    seoTitle := "404 - Page Not Found"
    seoDescription := ""
    content := some
      { sections :=
          [ ContentSection.hero
              { heading := "404 — Page Not Found"
                subheading := some "The page you\x27re looking for doesn\x27t exist."
                ctaText := some "Go Home"
                ctaLink := some "/"
                backgroundImage := none
                alignment := "center" } ] } }

/-- The body of `executeBuild`'s try block (build-engine.ts lines
128-213): render and upload every published page in order, render and
upload the 404 page, then compose and upload the manifest.  The object
store, the SHA-256 digest and the JSON encoder are external
collaborators (spec §1) and are passed in as `upload` (returning the
stored size or an error), `hash` and `stringify`.  Returns the manifest
page list, the total size and the manifest checksum, or the first
error. -/
def buildTryBody (upload : String → String → String → Except String Nat)
    (hash : String → String) (stringify : BuildManifest → String)
    (site : SiteRec) (siteVersion : SiteVersionRec) (pages : List PageRec) :
    Except String (List ManifestPage × Nat × String) := do
  let siteData : SiteData := { name := site.name, subdomain := site.subdomain }
  let acc ← pages.foldlM
    (fun (acc : List ManifestPage × Nat) page => do
      let html := renderPage (pageDataOf page) siteData site.settings
      let s3Key := siteVersion.s3Dir ++ "/" ++ pageFileName page.path
      let hashValue := hash html
      let size ← upload s3Key html "text/html; charset=utf-8"
      pure (acc.1 ++ [{ path := page.path, s3Key := s3Key, title := page.title,
                        hash := hashValue, size := size }],
            acc.2 + size))
    ([], 0)
  let notFoundHtml := renderPage notFoundPageData siteData site.settings
  let notFoundKey := siteVersion.s3Dir ++ "/404.html"
  let notFoundSize ← upload notFoundKey notFoundHtml "text/html; charset=utf-8"
  let manifestPages := acc.1
  let totalSize := acc.2 + notFoundSize
  let checksum := hash (String.join (manifestPages.map (fun p => p.hash)))
  let manifest : BuildManifest :=
    { version := siteVersion.version, siteId := site.id,
      tenantId := site.tenantId, pages := manifestPages,
      totalSize := totalSize, checksum := checksum }
  let _ ← upload (siteVersion.s3Dir ++ "/manifest.json") (stringify manifest)
    "application/json"
  pure (manifestPages, totalSize, checksum)

/-- Embedding of `executeBuild` (build-engine.ts lines 98-285).  The
job row is loaded with its version, site and published pages; the job is
marked PROCESSING; then the try body runs.  On success, one transaction
marks the version READY with its totals, marks every other READY
version of the site SUPERSEDED when the site had an active version,
points `Site.activeVersionId` at this version, and marks the job
COMPLETED.  On any failure in the try body, one transaction marks the
version FAILED and the job FAILED with the error message — the sites
table, and in particular `activeVersionId`, is untouched — and the
error is rethrown.  The lookup-miss fallbacks reproduce the
`throw new BuildError("Build job not found", …)` path (no state
change); missing version or site rows are impossible under the schema's
foreign keys.  The success transaction and the catch block are split
into `applyBuildResult`, applied to the try body's outcome. -/
def applyBuildResult (db : BuilderDb) (site : SiteRec)
    (siteVersion : SiteVersionRec) (buildJobId : String) :
    Except String (List ManifestPage × Nat × String) →
      BuilderDb × Except String Unit
  | Except.ok (manifestPages, totalSize, checksum) =>
    let versions := updateVersionById db.versions siteVersion.id
      (fun v => { v with
        status := VersionStatus.READY
        pageCount := manifestPages.length
        assetSize := totalSize
        manifestHash := some checksum })
    let versions :=
      if site.activeVersionId.isSome then
        versions.map (fun v =>
          if v.siteId = site.id && v.id ≠ siteVersion.id &&
              v.status = VersionStatus.READY then
            { v with status := VersionStatus.SUPERSEDED }
          else v)
      else versions
    ({ db with
        versions := versions
        sites := updateSiteById db.sites site.id
          (fun s => { s with activeVersionId := some siteVersion.id })
        jobs := updateJobById db.jobs buildJobId
          (fun j => { j with status := JobStatus.COMPLETED }) },
      Except.ok ())
  | Except.error errorMessage =>
    ({ db with
        versions := updateVersionById db.versions siteVersion.id
          (fun v => { v with status := VersionStatus.FAILED })
        jobs := updateJobById db.jobs buildJobId
          (fun j => { j with
            status := JobStatus.FAILED
            error := some errorMessage }) },
      Except.error errorMessage)

/-- Embedding of `executeBuild`, continued: load the job with its
version, site and pages, mark the job PROCESSING, run the try body, and
apply the success transaction or the catch block. -/
def executeBuild (upload : String → String → String → Except String Nat)
    (hash : String → String) (stringify : BuildManifest → String)
    (db : BuilderDb) (buildJobId : String) : BuilderDb × Except String Unit :=
  match findJob db buildJobId with
  | none => (db, Except.error "Build job not found")
  | some buildJob =>
    match db.versions.find? (fun v => v.id = buildJob.siteVersionId) with
    | none => (db, Except.error "Build job not found")
    | some siteVersion =>
      match findSite db siteVersion.siteId with
      | none => (db, Except.error "Build job not found")
      | some site =>
        let pages := publishedPagesOf db site.id
        let db := { db with
          jobs := updateJobById db.jobs buildJobId
            (fun j => { j with status := JobStatus.PROCESSING }) }
        applyBuildResult db site siteVersion buildJobId
          (buildTryBody upload hash stringify site siteVersion pages)

/- ══════════════════════════════════════════════════════════════════
   C4 — failed builds leave the active version untouched
   ══════════════════════════════════════════════════════════════════ -/

/-- C4: whenever a build execution fails anywhere in its try body —
the hypothesis `hbody` says the render/upload/manifest sequence
returned an error — the error is rethrown, the SiteVersion is marked
FAILED, the BuildJob is marked FAILED with the error message recorded,
and the sites table — in particular every `Site.activeVersionId` — is
left unchanged, so the site keeps serving the previously active
version. -/
theorem failed_build_preserves_active_version
    (upload : String → String → String → Except String Nat)
    (hash : String → String) (stringify : BuildManifest → String)
    (db : BuilderDb) (buildJobId msg : String)
    (buildJob : BuildJobRec) (siteVersion : SiteVersionRec) (site : SiteRec)
    (hj : findJob db buildJobId = some buildJob)
    (hv : db.versions.find? (fun v => v.id = buildJob.siteVersionId) =
      some siteVersion)
    (hs : findSite db siteVersion.siteId = some site)
    (hbody : buildTryBody upload hash stringify site siteVersion
      (publishedPagesOf db site.id) = Except.error msg) :
    (executeBuild upload hash stringify db buildJobId).2 = Except.error msg ∧
      (∀ v ∈ (executeBuild upload hash stringify db buildJobId).1.versions,
        v.id = siteVersion.id → v.status = VersionStatus.FAILED) ∧
      (∀ j ∈ (executeBuild upload hash stringify db buildJobId).1.jobs,
        j.id = buildJobId →
          j.status = JobStatus.FAILED ∧ j.error = some msg) ∧
      (executeBuild upload hash stringify db buildJobId).1.sites = db.sites := by
  simp only [executeBuild, hj, hv, hs, hbody, applyBuildResult]
  refine ⟨by trivial, ?_, ?_, by trivial⟩
  · intro v hvmem hvid
    simp only [updateVersionById, List.mem_map] at hvmem
    obtain ⟨u, _, rfl⟩ := hvmem
    by_cases hu : u.id = siteVersion.id
    · simp [hu]
    · simp only [if_neg hu] at hvid ⊢
      exact absurd hvid hu
  · intro j hjmem hjid
    simp only [updateJobById, List.map_map, List.mem_map, Function.comp] at hjmem
    obtain ⟨u, _, rfl⟩ := hjmem
    by_cases hu : u.id = buildJobId
    · simp [hu]
    · simp only [if_neg hu] at hjid ⊢
      exact absurd hjid hu

/-- Fixture: a builder store with one site (already serving version v1),
one published page, and a BUILDING version v2 with its queued job b2 —
the state right after a second publish. -/
def buildFixture : BuilderDb :=
  { sites :=
      [ { id := "s1", tenantId := "t1", name := "Acme", slug := "acme",
          subdomain := "acme", settings := {},
          activeVersionId := some "v1" } ]
    pages :=
      [ { id := "p1", siteId := "s1", path := "/", title := "Home",
          content := some { sections := [] }, isPublished := true } ]
    versions :=
      [ { id := "v1", siteId := "s1", version := 1, s3Dir := "sites/t1/s1/1",
          status := VersionStatus.READY }
      , { id := "v2", siteId := "s1", version := 2, s3Dir := "sites/t1/s1/2",
          status := VersionStatus.BUILDING } ]
    jobs :=
      [ { id := "b2", siteVersionId := "v2", tenantId := "t1",
          status := JobStatus.QUEUED } ] }

/-- Witness for the failed-build theorem: with an object store that
rejects every upload, the build of v2 fails, v2 is FAILED, the job
records the error, and the site still points at v1. -/
theorem failed_build_preserves_active_version_witness :
    (executeBuild (fun _ _ _ => Except.error "upload failed") (fun _ => "h")
        (fun _ => "m") buildFixture "b2").2 = Except.error "upload failed" ∧
      (∀ v ∈ (executeBuild (fun _ _ _ => Except.error "upload failed")
          (fun _ => "h") (fun _ => "m") buildFixture "b2").1.versions,
        v.id = "v2" → v.status = VersionStatus.FAILED) ∧
      (executeBuild (fun _ _ _ => Except.error "upload failed") (fun _ => "h")
          (fun _ => "m") buildFixture "b2").1.sites = buildFixture.sites := by
  have h := failed_build_preserves_active_version
    (fun _ _ _ => Except.error "upload failed") (fun _ => "h") (fun _ => "m")
    buildFixture "b2" "upload failed"
    { id := "b2", siteVersionId := "v2", tenantId := "t1",
      status := JobStatus.QUEUED }
    { id := "v2", siteId := "s1", version := 2, s3Dir := "sites/t1/s1/2",
      status := VersionStatus.BUILDING }
    { id := "s1", tenantId := "t1", name := "Acme", slug := "acme",
      subdomain := "acme", settings := {}, activeVersionId := some "v1" }
    rfl rfl rfl rfl
  exact ⟨h.1, h.2.1, h.2.2.2⟩

/- ══════════════════════════════════════════════════════════════════
   Rollback
   (saas-website-builder/src/services/build-engine.ts lines 310-357)
   and publish (src/api/routes/sites.ts lines 216-247 with triggerBuild,
   build-engine.ts lines 33-93)
   ══════════════════════════════════════════════════════════════════ -/

/-- The two error classes of saas-website-builder/src/lib/errors.ts the
publish and rollback paths throw: `NotFoundError` (HTTP 404, code
NOT_FOUND) and `ValidationError` (HTTP 400, code VALIDATION_ERROR).
They are distinct errors with distinct codes and statuses. -/
inductive ApiError where
  | notFound (resource : String) (id : String)
  | validation (msg : String)
deriving DecidableEq, Repr

/-- Whether a result is a `ValidationError`. -/
def isValidationError {α : Type} : Except ApiError α → Bool
  | Except.error (ApiError.validation _) => true
  | _ => false

/-- Whether a result is a success. -/
def apiOk {α : Type} : Except ApiError α → Bool
  | Except.ok _ => true
  | _ => false

/-- Status text used in the rollback error message. -/
def versionStatusText : VersionStatus → String
  | VersionStatus.BUILDING => "BUILDING"
  | VersionStatus.READY => "READY"
  | VersionStatus.FAILED => "FAILED"
  | VersionStatus.SUPERSEDED => "SUPERSEDED"

/-- Embedding of `rollback` (build-engine.ts lines 310-357).  The
target version is looked up by `(id, siteId)`; a miss — the version
does not exist or belongs to another site — throws NotFoundError; a
target whose status is neither READY nor SUPERSEDED throws
ValidationError.  Otherwise, in one transaction: a SUPERSEDED target is
promoted to READY, the current active version (if any and distinct from
the target) is marked SUPERSEDED, and `Site.activeVersionId` is pointed
at the target. -/
def rollback (db : BuilderDb) (siteId targetVersionId : String) :
    Except ApiError BuilderDb :=
  match findVersion db targetVersionId siteId with
  | none => Except.error (ApiError.notFound "SiteVersion" targetVersionId)
  | some targetVersion =>
    if targetVersion.status ≠ VersionStatus.READY ∧
        targetVersion.status ≠ VersionStatus.SUPERSEDED then
      Except.error (ApiError.validation
        ("Cannot rollback to version " ++ toString targetVersion.version
          ++ " — status is " ++ versionStatusText targetVersion.status))
    else
      let versions :=
        if targetVersion.status = VersionStatus.SUPERSEDED then
          updateVersionById db.versions targetVersionId
            (fun v => { v with status := VersionStatus.READY })
        else db.versions
      match findSite db siteId with
      | none => Except.error (ApiError.notFound "Site" siteId)
      | some site =>
        let versions :=
          match site.activeVersionId with
          | some activeId =>
            if activeId ≠ targetVersionId then
              updateVersionById versions activeId
                (fun v => { v with status := VersionStatus.SUPERSEDED })
            else versions
          | none => versions
        Except.ok { db with
          versions := versions
          sites := updateSiteById db.sites siteId
            (fun s => { s with activeVersionId := some targetVersionId }) }

/-- prisma `_count.pages` of a site: the number of all its pages,
published or not (the publish handler's include has no `isPublished`
filter). -/
def countSitePages (db : BuilderDb) (siteId : String) : Nat :=
  (db.pages.filter (fun p => p.siteId = siteId)).length

/-- Embedding of `triggerBuild` (build-engine.ts lines 33-93): look up
the site by id, compute the next version number as one more than the
highest existing version of the site (`latestVersion?.version ?? 0`),
and create, in one transaction, a BUILDING SiteVersion (with the
s3 prefix `sites/{tenantId}/{siteId}/{version}` and the site's total
page count) and a QUEUED BuildJob, which is then enqueued.  Row ids are
generated by the database; they are passed in as `freshVersionId` /
`freshJobId`. -/
def triggerBuild (db : BuilderDb) (siteId _userId : String)
    (freshVersionId freshJobId : String) :
    Except ApiError (BuilderDb × SiteVersionRec × BuildJobRec) :=
  match findSite db siteId with
  | none => Except.error (ApiError.notFound "Site" siteId)
  | some site =>
    let latestVersion :=
      ((db.versions.filter (fun v => v.siteId = siteId)).map
        (fun v => v.version)).foldl max 0
    let nextVersion := latestVersion + 1
    let s3Dir := "sites/" ++ site.tenantId ++ "/" ++ siteId ++ "/"
      ++ toString nextVersion
    let siteVersion : SiteVersionRec :=
      { id := freshVersionId, siteId := siteId, version := nextVersion,
        s3Dir := s3Dir, status := VersionStatus.BUILDING,
        pageCount := countSitePages db siteId }
    let buildJob : BuildJobRec :=
      { id := freshJobId, siteVersionId := freshVersionId,
        tenantId := site.tenantId, status := JobStatus.QUEUED }
    Except.ok
      ({ db with
          versions := db.versions ++ [siteVersion]
          jobs := db.jobs ++ [buildJob] },
        siteVersion, buildJob)

/-- Embedding of the publish handler POST /sites/:id/publish
(sites.ts lines 216-247): the site is looked up under the caller's
tenant (miss: NotFoundError); a site whose total page count is zero is
rejected with `ValidationError("Cannot publish a site with no pages")`;
otherwise `triggerBuild` creates the SiteVersion and BuildJob and the
handler answers 202. -/
def publishSite (db : BuilderDb) (tenantId siteId userId : String)
    (freshVersionId freshJobId : String) :
    Except ApiError (BuilderDb × SiteVersionRec × BuildJobRec) :=
  match findSiteForTenant db siteId tenantId with
  | none => Except.error (ApiError.notFound "Site" siteId)
  | some _site =>
    if countSitePages db siteId = 0 then
      Except.error (ApiError.validation "Cannot publish a site with no pages")
    else triggerBuild db siteId userId freshVersionId freshJobId

/- ══════════════════════════════════════════════════════════════════
   C6 — rollback validation and pointer flip
   ══════════════════════════════════════════════════════════════════ -/

/-- Helper: a row of an id-keyed status update whose id matches carries
the new status. -/
theorem status_of_mem_updateVersionById (vs : List SiteVersionRec)
    (id : String) (st : VersionStatus) (v : SiteVersionRec)
    (hv : v ∈ updateVersionById vs id (fun u => { u with status := st }))
    (hid : v.id = id) : v.status = st := by
  simp only [updateVersionById, List.mem_map] at hv
  obtain ⟨u, _, rfl⟩ := hv
  by_cases hu : u.id = id
  · simp [hu]
  · simp only [if_neg hu] at hid
    exact absurd hid hu

/-- C6 (amended): rollback fails with NotFoundError when the target
version does not belong to the site, and with ValidationError when the
target belongs to the site but its status is neither READY nor
SUPERSEDED (in both cases nothing is changed — no store is returned);
otherwise, in one transaction, the target ends READY (promoted when it
was SUPERSEDED), the previously active version — when one exists and is
distinct from the target — ends SUPERSEDED, and the site's
`activeVersionId` points at the target.  The hypothesis `huniq` states
that the version id is a key, as the database's primary key makes it. -/
theorem rollback_target_checks_and_flip (db : BuilderDb)
    (siteId targetId : String) :
    (findVersion db targetId siteId = none →
      rollback db siteId targetId =
        Except.error (ApiError.notFound "SiteVersion" targetId)) ∧
    (∀ tv, findVersion db targetId siteId = some tv →
      tv.status ≠ VersionStatus.READY → tv.status ≠ VersionStatus.SUPERSEDED →
      rollback db siteId targetId =
        Except.error (ApiError.validation
          ("Cannot rollback to version " ++ toString tv.version
            ++ " — status is " ++ versionStatusText tv.status))) ∧
    (∀ tv site db', findVersion db targetId siteId = some tv →
      (tv.status = VersionStatus.READY ∨ tv.status = VersionStatus.SUPERSEDED) →
      findSite db siteId = some site →
      (∀ v ∈ db.versions, v.id = targetId → v = tv) →
      rollback db siteId targetId = Except.ok db' →
      (∀ v ∈ db'.versions, v.id = targetId →
          v.status = VersionStatus.READY) ∧
        (∀ a, site.activeVersionId = some a → a ≠ targetId →
          ∀ v ∈ db'.versions, v.id = a →
            v.status = VersionStatus.SUPERSEDED) ∧
        (∀ s ∈ db'.sites, s.id = siteId →
          s.activeVersionId = some targetId)) := by
  refine ⟨?_, ?_, ?_⟩
  · intro hmiss
    simp [rollback, hmiss]
  · intro tv htv h1 h2
    simp [rollback, htv, h1, h2]
  · intro tv site db' htv hstat hsite huniq hok
    have hcond : ¬ (tv.status ≠ VersionStatus.READY ∧
        tv.status ≠ VersionStatus.SUPERSEDED) := by
      rcases hstat with h | h <;> simp [h]
    simp only [rollback, htv, if_neg hcond, hsite, Except.ok.injEq] at hok
    subst hok
    have stage1 : ∀ u, u ∈ (if tv.status = VersionStatus.SUPERSEDED then
        updateVersionById db.versions targetId
          (fun v => { v with status := VersionStatus.READY })
      else db.versions) → u.id = targetId →
        u.status = VersionStatus.READY := by
      intro u hu hid
      by_cases hsup : tv.status = VersionStatus.SUPERSEDED
      · rw [if_pos hsup] at hu
        exact status_of_mem_updateVersionById _ _ _ u hu hid
      · rw [if_neg hsup] at hu
        rw [huniq u hu hid]
        rcases hstat with h | h
        · exact h
        · exact absurd h hsup
    refine ⟨?_, ?_, ?_⟩
    · intro v hv hid
      rcases hact : site.activeVersionId with _ | a
      · simp only [hact] at hv
        exact stage1 v hv hid
      · simp only [hact] at hv
        by_cases ha : a ≠ targetId
        · rw [if_pos ha] at hv
          simp only [updateVersionById, List.mem_map] at hv
          obtain ⟨u, hu, rfl⟩ := hv
          by_cases hua : u.id = a
          · rw [if_pos hua]
            have hut : u.id = targetId := by simpa [hua] using hid
            exact absurd (hua.symm.trans hut) ha
          · rw [if_neg hua] at hid ⊢
            exact stage1 u hu hid
        · rw [if_neg ha] at hv
          exact stage1 v hv hid
    · intro a hact hne v hv hid
      simp only [hact] at hv
      rw [if_pos hne] at hv
      exact status_of_mem_updateVersionById _ _ _ v hv hid
    · intro s hs hid
      simp only [updateSiteById, List.mem_map] at hs
      obtain ⟨u, _, rfl⟩ := hs
      by_cases hu : u.id = siteId
      · simp [hu]
      · simp only [if_neg hu] at hid
        exact absurd hid hu

/-- Fixture for rollback: tenant t1's site-A currently serves va1
(READY) and has an older SUPERSEDED version va0; another tenant's
site-B owns vb1. -/
def rollbackFixture : BuilderDb :=
  { sites :=
      [ { id := "site-A", tenantId := "t1", name := "A", slug := "a",
          subdomain := "a", activeVersionId := some "va1" }
      , { id := "site-B", tenantId := "t2", name := "B", slug := "b",
          subdomain := "b" } ]
    pages := []
    versions :=
      [ { id := "va0", siteId := "site-A", version := 1,
          s3Dir := "sites/t1/site-A/1", status := VersionStatus.SUPERSEDED }
      , { id := "va1", siteId := "site-A", version := 2,
          s3Dir := "sites/t1/site-A/2", status := VersionStatus.READY }
      , { id := "vb1", siteId := "site-B", version := 1,
          s3Dir := "sites/t2/site-B/1", status := VersionStatus.READY } ]
    jobs := [] }

/-- Counterexample to C6 as stated: rolling site-A back to vb1 — a
READY version that belongs to site-B, not site-A — fails with
NotFoundError, not with the validation error the claim asserts for a
target that does not belong to the site. -/
theorem rollback_foreign_target_is_not_found :
    rollback rollbackFixture "site-A" "vb1" =
        Except.error (ApiError.notFound "SiteVersion" "vb1") ∧
      isValidationError (rollback rollbackFixture "site-A" "vb1") = false := by
  constructor <;> rfl

/-- The store after rolling site-A back to the SUPERSEDED va0. -/
def rollbackAfter : BuilderDb :=
  match rollback rollbackFixture "site-A" "va0" with
  | Except.ok d => d
  | Except.error _ => { sites := [], pages := [], versions := [], jobs := [] }

/-- Witness for the rollback theorem: rolling site-A back to va0
promotes va0 to READY, supersedes va1, and points the site at va0. -/
theorem rollback_target_checks_and_flip_witness :
    (∀ v ∈ rollbackAfter.versions, v.id = "va0" →
        v.status = VersionStatus.READY) ∧
      (∀ v ∈ rollbackAfter.versions, v.id = "va1" →
        v.status = VersionStatus.SUPERSEDED) ∧
      (∀ s ∈ rollbackAfter.sites, s.id = "site-A" →
        s.activeVersionId = some "va0") := by
  have h := (rollback_target_checks_and_flip rollbackFixture "site-A"
      "va0").2.2
    { id := "va0", siteId := "site-A", version := 1,
      s3Dir := "sites/t1/site-A/1", status := VersionStatus.SUPERSEDED }
    { id := "site-A", tenantId := "t1", name := "A", slug := "a",
      subdomain := "a", activeVersionId := some "va1" }
    rollbackAfter rfl (Or.inr rfl) rfl (by decide) rfl
  exact ⟨h.1, h.2.1 "va1" rfl (by decide), h.2.2⟩

/- ══════════════════════════════════════════════════════════════════
   C9 — publish validation
   ══════════════════════════════════════════════════════════════════ -/

/-- C9 (amended): publishing a site with zero pages fails with
VALIDATION_ERROR; the check counts all pages of the site, published or
not, so a site with at least one page — even with every page
unpublished — passes validation and gets a BUILDING SiteVersion and a
QUEUED BuildJob. -/
theorem publish_requires_a_page (db : BuilderDb)
    (tenantId siteId userId freshVersionId freshJobId : String)
    (site : SiteRec)
    (h : findSiteForTenant db siteId tenantId = some site) :
    (countSitePages db siteId = 0 →
      publishSite db tenantId siteId userId freshVersionId freshJobId =
        Except.error
          (ApiError.validation "Cannot publish a site with no pages")) ∧
    (countSitePages db siteId ≠ 0 →
      ∃ db2 ver job,
        publishSite db tenantId siteId userId freshVersionId freshJobId =
            Except.ok (db2, ver, job) ∧
          ver.status = VersionStatus.BUILDING ∧
          ver.version = ((db.versions.filter
              (fun v => v.siteId = siteId)).map (fun v => v.version)).foldl
                max 0 + 1 ∧
          job.status = JobStatus.QUEUED) := by
  constructor
  · intro hzero
    simp [publishSite, h, hzero]
  · intro hnz
    have hmem := List.mem_of_find?_eq_some h
    have hkey : ∃ s', findSite db siteId = some s' := by
      have : (db.sites.find? (fun s => s.id = siteId)).isSome := by
        apply List.find?_isSome.mpr
        refine ⟨site, hmem, ?_⟩
        have := List.find?_some h
        simp only [Bool.and_eq_true, decide_eq_true_eq] at this
        simp [this.1]
      rcases hfound : db.sites.find? (fun s => s.id = siteId) with _ | s'
      · rw [hfound] at this
        simp at this
      · exact ⟨s', hfound⟩
    obtain ⟨s', hs'⟩ := hkey
    simp only [publishSite, h, if_neg hnz, triggerBuild, hs']
    exact ⟨_, _, _, rfl, rfl, rfl, rfl⟩

/-- Fixture: tenant t1's site s1 has exactly one page and it is
unpublished. -/
def unpublishedFixture : BuilderDb :=
  { sites :=
      [ { id := "s1", tenantId := "t1", name := "Acme", slug := "acme",
          subdomain := "acme" } ]
    pages :=
      [ { id := "p1", siteId := "s1", path := "/", title := "Home",
          isPublished := false } ]
    versions := []
    jobs := [] }

/-- Counterexample to C9 as stated: site s1 has zero published pages,
yet POST /sites/s1/publish succeeds — the handler counts all pages, not
published ones, and one unpublished page passes the check. -/
theorem publish_accepts_zero_published_pages :
    apiOk (publishSite unpublishedFixture "t1" "s1" "u1" "nv1" "nj1") = true ∧
      (unpublishedFixture.pages.filter
        (fun p => p.siteId = "s1" && p.isPublished)).length = 0 := by
  constructor <;> rfl

/-- Fixture: tenant t1's site s2 has no pages at all. -/
def emptySiteFixture : BuilderDb :=
  { sites :=
      [ { id := "s2", tenantId := "t1", name := "Void", slug := "void",
          subdomain := "void" } ]
    pages := []
    versions := []
    jobs := [] }

/-- Witness for the publish theorem: the pageless site is rejected with
the validation error, and the all-unpublished site is accepted. -/
theorem publish_requires_a_page_witness :
    publishSite emptySiteFixture "t1" "s2" "u1" "nv" "nj" =
        Except.error
          (ApiError.validation "Cannot publish a site with no pages") ∧
      apiOk (publishSite unpublishedFixture "t1" "s1" "u1" "nv1" "nj1")
        = true := by
  constructor
  · exact (publish_requires_a_page emptySiteFixture "t1" "s2" "u1" "nv" "nj"
      { id := "s2", tenantId := "t1", name := "Void", slug := "void",
        subdomain := "void" } rfl).1 (by decide)
  · obtain ⟨db2, ver, job, heq, -⟩ :=
      (publish_requires_a_page unpublishedFixture "t1" "s1" "u1" "nv1" "nj1"
        { id := "s1", tenantId := "t1", name := "Acme", slug := "acme",
          subdomain := "acme" } rfl).2 (by decide)
    simp [apiOk, heq]

/- ══════════════════════════════════════════════════════════════════
   C10 — renderer totality and fallbacks
   ══════════════════════════════════════════════════════════════════ -/

/-- Helper: a prefix of the left part of an append is a prefix of the
whole, at the character level. -/
theorem prefix_data_append_left (m : List Char) (a b : String)
    (h : m <+: a.data) : m <+: (a ++ b).data := by
  rw [String.data_append]
  exact h.trans (List.prefix_append _ _)

/-- C10: `renderPage` is total over its typed inputs and yields an HTML
document for every page, site and settings value: the output always
starts with the doctype; settings without a theme render exactly as
settings carrying the built-in default theme; absent navigation renders
to the empty string; a page whose settings carry no footer renders with
an empty footer slot, while a footer renders through `renderFooter`
into that same slot; and an unknown section type renders as the visible
comment. -/
theorem renderPage_total_and_fallbacks (page : PageData) (site : SiteData)
    (st : SiteSettings) (th : ThemeSettings) :
    ("<!DOCTYPE html>".data <+: (renderPage page site st).data) ∧
    (st.theme = none →
      renderPage page site st =
        renderPage page site { st with theme := some defaultRendererTheme }) ∧
    (st.navigation = none →
      renderNavigation (st.navigation.getD []) site.name th page.path = "") ∧
    (∃ pre,
      renderPage page site { st with footer := none } =
          pre ++ "\n</body>\n</html>" ∧
        ∀ f, renderPage page site { st with footer := some f } =
          pre ++ renderFooter f.text f.links
              (st.theme.getD defaultRendererTheme)
            ++ "\n</body>\n</html>") ∧
    (renderSection ContentSection.unknownType th =
      "<!-- Unknown section type -->") := by
  refine ⟨?_, ?_, ?_, ?_, rfl⟩
  · simp only [renderPage]
    iterate 20 apply prefix_data_append_left
    decide
  · intro h
    simp only [renderPage, h, Option.getD_none, Option.getD_some]
  · intro h
    simp only [h, Option.getD_none]
    rfl
  · simp only [renderPage]
    exact ⟨_, by rw [String.append_empty], fun f => rfl⟩

/-- Fixture page for the renderer witnesses. -/
def witPage : PageData :=
  { path := "/", title := "Home", seoTitle := "", seoDescription := "",
    content := none }

/-- Fixture site for the renderer witnesses. -/
def witSite : SiteData := { name := "W", subdomain := "w" }

/-- Witness for the renderer-fallbacks theorem, at empty settings: the
default theme is substituted, the absent navigation renders nothing,
and the unknown section type renders the comment. -/
theorem renderPage_total_and_fallbacks_witness :
    renderPage witPage witSite {} =
        renderPage witPage witSite { theme := some defaultRendererTheme } ∧
      renderNavigation [] witSite.name defaultRendererTheme witPage.path = ""
        ∧
      renderSection ContentSection.unknownType defaultRendererTheme =
        "<!-- Unknown section type -->" := by
  have h := renderPage_total_and_fallbacks witPage witSite {}
    defaultRendererTheme
  exact ⟨h.2.1 rfl, h.2.2.1 rfl, h.2.2.2.2⟩

/- ══════════════════════════════════════════════════════════════════
   C2 — HTML escaping
   ══════════════════════════════════════════════════════════════════ -/

/-- Characterization of membership in a single-character replacement:
a character of the result is either part of the replacement chunk of an
occurrence of `d`, or an untouched character of the input. -/
theorem mem_replChar_iff (c d : Char) (r l : List Char) :
    c ∈ replChar d r l ↔
      ∃ ch ∈ l, (ch = d ∧ c ∈ r) ∨ (ch ≠ d ∧ c = ch) := by
  simp only [replChar, List.mem_flatten, List.mem_map]
  constructor
  · rintro ⟨chunk, ⟨ch, hch, rfl⟩, hc⟩
    by_cases h : ch = d
    · rw [if_pos h] at hc
      exact ⟨ch, hch, Or.inl ⟨h, hc⟩⟩
    · rw [if_neg h] at hc
      simp only [List.mem_singleton] at hc
      exact ⟨ch, hch, Or.inr ⟨h, hc⟩⟩
  · rintro ⟨ch, hch, h | h⟩
    · exact ⟨r, ⟨ch, hch, by rw [if_pos h.1]⟩, h.2⟩
    · exact ⟨[ch], ⟨ch, hch, by rw [if_neg h.1]⟩, by simp [h.2]⟩

/-- An input character different from the replaced one survives. -/
theorem mem_replChar_of_mem {c d : Char} {r l : List Char}
    (h : c ∈ l) (hne : c ≠ d) : c ∈ replChar d r l :=
  (mem_replChar_iff c d r l).mpr ⟨c, h, Or.inr ⟨hne, rfl⟩⟩

/-- The replaced character is eliminated when its replacement does not
contain it. -/
theorem not_mem_replChar_self {c : Char} {r l : List Char}
    (hr : c ∉ r) : c ∉ replChar c r l := by
  intro h
  rcases (mem_replChar_iff c c r l).mp h with ⟨ch, _, ⟨_, hcr⟩ | ⟨hne, rfl⟩⟩
  · exact hr hcr
  · exact hne rfl

/-- A character absent from both the input and the replacement stays
absent. -/
theorem not_mem_replChar {c d : Char} {r l : List Char}
    (hl : c ∉ l) (hr : c ∉ r) : c ∉ replChar d r l := by
  intro h
  rcases (mem_replChar_iff c d r l).mp h with ⟨ch, hch, ⟨_, hcr⟩ | ⟨_, rfl⟩⟩
  · exact hr hcr
  · exact hl hch

/-- `replChar` distributes over append. -/
theorem replChar_append (d : Char) (r l₁ l₂ : List Char) :
    replChar d r (l₁ ++ l₂) = replChar d r l₁ ++ replChar d r l₂ := by
  simp [replChar]

/-- `replChar` on a list free of the replaced character is the
identity. -/
theorem replChar_eq_self (d : Char) (r : List Char) :
    ∀ l : List Char, d ∉ l → replChar d r l = l := by
  intro l
  induction l with
  | nil => intro _; rfl
  | cons x xs ih =>
    intro h
    simp only [List.mem_cons, not_or] at h
    have hx : x ≠ d := fun hxd => h.1 hxd.symm
    show ((x :: xs).map _).flatten = _
    rw [List.map_cons, List.flatten_cons, if_neg hx]
    show [x] ++ replChar d r xs = x :: xs
    rw [ih h.2]
    rfl

/-- A middle segment free of the replaced character survives the
replacement as a contiguous segment. -/
theorem replChar_preserves_middle {m l : List Char} {d : Char}
    (r : List Char) (h : m <:+: l) (hd : d ∉ m) :
    m <:+: replChar d r l := by
  obtain ⟨s, t, rfl⟩ := h
  rw [replChar_append, replChar_append, replChar_eq_self d r m hd]
  exact ⟨replChar d r s, replChar d r t, rfl⟩

/-- Every occurrence of the replaced character leaves the replacement
chunk as a contiguous segment of the result. -/
theorem replChar_emits_entity {c : Char} {l : List Char}
    (r : List Char) (h : c ∈ l) : r <:+: replChar c r l := by
  obtain ⟨s, t, rfl⟩ := List.append_of_mem h
  rw [replChar_append, show c :: t = [c] ++ t from rfl, replChar_append]
  refine ⟨replChar c r s, replChar c r t, ?_⟩
  have : replChar c r [c] = r := by
    show ([c].map _).flatten = r
    simp
  rw [this]
  simp

/-- After escaping, none of `<`, `>`, double quote or apostrophe occurs
anywhere in the result: each is eliminated by its own replacement stage
and no later entity chunk reintroduces it. -/
theorem no_specials_in_escapeHtmlL (l : List Char) :
    '<' ∉ escapeHtmlL l ∧ '>' ∉ escapeHtmlL l ∧
      quoteChar ∉ escapeHtmlL l ∧ apostropheChar ∉ escapeHtmlL l := by
  unfold escapeHtmlL
  refine ⟨?_, ?_, ?_, ?_⟩
  · refine not_mem_replChar (r := "&#039;".data) ?_ (by decide)
    refine not_mem_replChar (r := "&quot;".data) ?_ (by decide)
    refine not_mem_replChar (r := "&gt;".data) ?_ (by decide)
    exact not_mem_replChar_self (by decide)
  · refine not_mem_replChar (r := "&#039;".data) ?_ (by decide)
    refine not_mem_replChar (r := "&quot;".data) ?_ (by decide)
    exact not_mem_replChar_self (by decide)
  · refine not_mem_replChar (r := "&#039;".data) ?_ (by decide)
    exact not_mem_replChar_self (by decide)
  · exact not_mem_replChar_self (by decide)

/-- Escaping a string containing `<` puts the `&lt;` entity in the
result. -/
theorem escapeHtmlL_emits_lt {l : List Char} (h : '<' ∈ l) :
    "&lt;".data <:+: escapeHtmlL l := by
  unfold escapeHtmlL
  refine replChar_preserves_middle _ ?_ (by decide)
  refine replChar_preserves_middle _ ?_ (by decide)
  refine replChar_preserves_middle _ ?_ (by decide)
  exact replChar_emits_entity _ (mem_replChar_of_mem h (by decide))

/-- Escaping a string containing `>` puts the `&gt;` entity in the
result. -/
theorem escapeHtmlL_emits_gt {l : List Char} (h : '>' ∈ l) :
    "&gt;".data <:+: escapeHtmlL l := by
  unfold escapeHtmlL
  refine replChar_preserves_middle _ ?_ (by decide)
  refine replChar_preserves_middle _ ?_ (by decide)
  exact replChar_emits_entity _
    (mem_replChar_of_mem (mem_replChar_of_mem h (by decide)) (by decide))

/-- Escaping a string containing a double quote puts the `&quot;`
entity in the result. -/
theorem escapeHtmlL_emits_quot {l : List Char} (h : quoteChar ∈ l) :
    "&quot;".data <:+: escapeHtmlL l := by
  unfold escapeHtmlL
  refine replChar_preserves_middle _ ?_ (by decide)
  exact replChar_emits_entity _
    (mem_replChar_of_mem
      (mem_replChar_of_mem (mem_replChar_of_mem h (by decide)) (by decide))
      (by decide))

/-- Escaping a string containing an apostrophe puts the `&#039;` entity
in the result. -/
theorem escapeHtmlL_emits_apos {l : List Char} (h : apostropheChar ∈ l) :
    "&#039;".data <:+: escapeHtmlL l := by
  unfold escapeHtmlL
  exact replChar_emits_entity _
    (mem_replChar_of_mem
      (mem_replChar_of_mem
        (mem_replChar_of_mem (mem_replChar_of_mem h (by decide)) (by decide))
        (by decide))
      (by decide))

/-- C2 (amended): for every user-supplied string `s` containing at
least one of `<`, `>`, `"` or `'` that the renderer passes through
`escapeHtml` — titles, descriptions, section props, navigation labels
and paths, footer text, the site name — the escaped rendering contains
no literal occurrence of `s`, and the escaped entity of each such
character appears in it instead. -/
theorem escaped_text_never_contains_itself (s : String)
    (h : '<' ∈ s.data ∨ '>' ∈ s.data ∨ quoteChar ∈ s.data ∨
      apostropheChar ∈ s.data) :
    ¬ (s.data <:+: (escapeHtml s).data) ∧
      ('<' ∈ s.data → "&lt;".data <:+: (escapeHtml s).data) ∧
      ('>' ∈ s.data → "&gt;".data <:+: (escapeHtml s).data) ∧
      (quoteChar ∈ s.data → "&quot;".data <:+: (escapeHtml s).data) ∧
      (apostropheChar ∈ s.data → "&#039;".data <:+: (escapeHtml s).data) := by
  have hdata : (escapeHtml s).data = escapeHtmlL s.data := rfl
  rw [hdata]
  have hkill := no_specials_in_escapeHtmlL s.data
  refine ⟨?_, escapeHtmlL_emits_lt, escapeHtmlL_emits_gt,
    escapeHtmlL_emits_quot, escapeHtmlL_emits_apos⟩
  intro hinf
  rcases h with hc | hc | hc | hc
  · exact hkill.1 (List.Sublist.mem hc hinf.sublist)
  · exact hkill.2.1 (List.Sublist.mem hc hinf.sublist)
  · exact hkill.2.2.1 (List.Sublist.mem hc hinf.sublist)
  · exact hkill.2.2.2 (List.Sublist.mem hc hinf.sublist)

/-- Witness for the escaping theorem at the classic probe string. -/
theorem escaped_text_never_contains_itself_witness :
    ('<' ∈ "<script>".data ∨ '>' ∈ "<script>".data ∨
        quoteChar ∈ "<script>".data ∨ apostropheChar ∈ "<script>".data) ∧
      ¬ ("<script>".data <:+: (escapeHtml "<script>").data) ∧
      "&lt;".data <:+: (escapeHtml "<script>").data := by
  refine ⟨by decide, ?_, ?_⟩
  · exact (escaped_text_never_contains_itself "<script>" (by decide)).1
  · exact (escaped_text_never_contains_itself "<script>" (by decide)).2.1
      (by decide)

/-- Helper: a segment of the left part of an append is a segment of the
whole, at the character level. -/
theorem middle_data_append_left (m : List Char) (a b : String)
    (h : m <:+: a.data) : m <:+: (a ++ b).data := by
  rw [String.data_append]
  exact h.trans ⟨[], b.data, by simp⟩

/-- Helper: a segment of the right part of an append is a segment of
the whole, at the character level. -/
theorem middle_data_append_right (m : List Char) (a b : String)
    (h : m <:+: b.data) : m <:+: (a ++ b).data := by
  rw [String.data_append]
  exact h.trans ⟨a.data, [], by simp⟩

/-- Leading-trim over an append whose first part does not trim away. -/
theorem trimStartL_append (l₁ l₂ : List Char)
    (h : (trimStartL l₁).isEmpty = false) :
    trimStartL (l₁ ++ l₂) = trimStartL l₁ ++ l₂ := by
  simp only [trimStartL, List.dropWhile_append]
  rw [if_neg (by simp only [trimStartL] at h; rw [h]; exact Bool.false_ne_true)]

/-- Trailing-trim over an append whose last part does not trim away. -/
theorem trimEndL_append (l₁ l₂ : List Char)
    (h : (l₂.reverse.dropWhile isJsWhitespace).isEmpty = false) :
    trimEndL (l₁ ++ l₂) = l₁ ++ trimEndL l₂ := by
  simp only [trimEndL, List.reverse_append, List.dropWhile_append]
  rw [if_neg (by rw [h]; exact Bool.false_ne_true)]
  rw [List.reverse_append, List.reverse_reverse]

/-- A middle segment of a trimmed string survives the trim whenever the
leading part does not trim to nothing and the closing part does not
trim to nothing from the right. -/
theorem jsTrim_keeps_middle (lead needle rest close : String)
    (hlead : (trimStartL lead.data).isEmpty = false)
    (hclose : (close.data.reverse.dropWhile isJsWhitespace).isEmpty = false) :
    needle.data <:+: (jsTrim (lead ++ needle ++ rest ++ close)).data := by
  show needle.data <:+:
    trimEndL (trimStartL (lead ++ needle ++ rest ++ close).data)
  have h1 : (lead ++ needle ++ rest ++ close).data
      = lead.data ++ (needle.data ++ rest.data ++ close.data) := by
    simp [String.data_append]
  rw [h1, trimStartL_append _ _ hlead]
  have h2 : trimStartL lead.data ++ (needle.data ++ rest.data ++ close.data)
      = (trimStartL lead.data ++ (needle.data ++ rest.data)) ++ close.data := by
    simp [List.append_assoc]
  rw [h2, trimEndL_append _ _ hclose]
  exact ⟨trimStartL lead.data, rest.data ++ trimEndL close.data,
    by simp [List.append_assoc]⟩

/-- An HTML/JS payload used as a theme color. -/
def xssNeedle : String := "</style><script>alert(1)</script>"

/-- Site settings whose theme carries the payload as primaryColor. -/
def xssTheme : ThemeSettings :=
  { primaryColor := xssNeedle
    secondaryColor := "#7c3aed"
    backgroundColor := "#ffffff"
    textColor := "#1f2937"
    fontHeading := "Inter"
    fontBody := "Inter" }

/-- Settings carrying the payload theme. -/
def xssSettings : SiteSettings := { theme := some xssTheme }

/-- A plain page and site for the leak counterexample. -/
def plainPage : PageData :=
  { path := "/", title := "Home", seoTitle := "Home", seoDescription := "",
    content := none }

/-- A plain site for the leak counterexample. -/
def plainSite : SiteData := { name := "Acme", subdomain := "acme" }

/-- A page whose user-supplied seoTitle is the entity string itself. -/
def ampPage : PageData :=
  { path := "/", title := "x", seoTitle := "&amp;", seoDescription := "",
    content := none }

/-- The payload survives `generateCSS` verbatim: theme values are
interpolated into the style template unescaped, and the surrounding
trim removes only template-boundary whitespace. -/
theorem xss_in_generateCSS :
    xssNeedle.data <:+: (generateCSS xssTheme).data := by
  have hshape : generateCSS xssTheme
      = jsTrim (cssLead ++ xssNeedle
          ++ (cssAfterPrimary ++ "#7c3aed" ++ cssAfterSecondary ++ "#ffffff"
            ++ cssAfterBg ++ "#1f2937" ++ cssAfterText ++ "Inter"
            ++ cssAfterFontHeading ++ "Inter" ++ cssStaticRules)
          ++ cssClose) := by
    simp [generateCSS, xssTheme, String.append_assoc]
  rw [hshape]
  exact jsTrim_keeps_middle _ _ _ _ (by decide) (by decide)

/-- Counterexample to C2 as stated.  First leak: the payload placed in
`settings.theme.primaryColor` — user-supplied text that appears in the
rendered page — occurs literally in the output of `renderPage` (inside
the style block), with no escaping.  Second leak: a seoTitle equal to
the entity string `&amp;` is escaped to `&amp;amp;`, of which `&amp;`
is a literal substring, so the output contains a literal occurrence of
that user-supplied `&`-containing string as well. -/
theorem unescaped_theme_and_entity_title_leak :
    xssNeedle.data <:+: (renderPage plainPage plainSite xssSettings).data ∧
      "&amp;".data <:+: (renderPage ampPage plainSite {}).data := by
  constructor
  · simp only [renderPage]
    iterate 7 apply middle_data_append_left
    apply middle_data_append_right
    exact xss_in_generateCSS
  · have hlit : "&amp;".data <:+:
        (escapeHtml (jsOr ampPage.seoTitle ampPage.title)).data := by decide
    simp only [renderPage]
    iterate 19 apply middle_data_append_left
    apply middle_data_append_right
    exact hlit
